import Mathlib

/-!
Verification of the falling-sand simulation engine (the `Grid` class of the
enhanced variant, `src/unnamed/part_000`, which the spec takes as the
reference implementation).

The JavaScript code is embedded shallowly:

* JS numbers are modelled as `ℚ` (temperatures, lifespans, probabilities,
  densities) or `ℤ` (coordinates, indices, material ids).  All numeric
  constants in the source are decimal literals that are exact in `ℚ`.
* The mutable `Grid` object is a Lean structure `Grid`; every mutation
  becomes a state-passing function.  `this.parent.gravityStrength` (the only
  field of the back-referenced game object the engine reads) is modelled as
  the `gravity` field of the structure.
* `Math.random()` is modelled by an explicit stream of rationals
  (`List ℚ`), consumed in exactly the order and under exactly the guards
  (including `&&`/`||` short-circuiting) in which the source calls
  `Math.random()`.  Stream entries stand for values in `[0,1)`; an exhausted
  stream yields `1`, making every comparison `Math.random() < p` false.
* Raw JS array reads `this.grid[i]` outside `[0, length)` yield `undefined`;
  this is modelled by the junk value `-2` (distinct from every material id
  and from the `-1` returned by the bounds-checked `get`).  Raw writes
  outside the array bounds are modelled as no-ops; the engine never performs
  such a write on the states reachable through its own guards.
-/

set_option allowUnsafeReducibility true
set_option linter.unusedVariables false
attribute [local semireducible] Rat.add Rat.mul Rat.sub Rat.inv Rat.ofScientific

namespace SandSim

/-! ### Material registry (`this.materials` and `this.properties`) -/

def EMPTY : ℤ := 0
def SAND : ℤ := 1
def WATER : ℤ := 2
def WALL : ℤ := 3
def FIRE : ℤ := 4
def OIL : ℤ := 5
def PLANT : ℤ := 6
def ACID : ℤ := 7
def ICE : ℤ := 8
def STEAM : ℤ := 9

/-- The list of valid material ids, in registry order. -/
def materialIds : List ℤ := [EMPTY, SAND, WATER, WALL, FIRE, OIL, PLANT, ACID, ICE, STEAM]

/-- `this.properties[m].density`. -/
def density (m : ℤ) : ℚ :=
  if m = EMPTY then 0
  else if m = SAND then 3
  else if m = WATER then 2
  else if m = WALL then 10
  else if m = FIRE then 0.5
  else if m = OIL then 1.5
  else if m = PLANT then 1
  else if m = ACID then 2.2
  else if m = ICE then 1.8
  else if m = STEAM then 0.3
  else 0

/-- `this.properties[m].flammable`. -/
def flammable (m : ℤ) : Bool :=
  if m = OIL then true else if m = PLANT then true else false

/-- `this.properties[m].lifespan`. -/
def lifespanOf (m : ℤ) : ℚ :=
  if m = FIRE then 100 else if m = ACID then 500 else if m = STEAM then 200 else 0

/-- `this.properties[ACID].dissolveRate`. -/
def dissolveRate : ℚ := 0.2

/-- `this.properties[ICE].meltRate`. -/
def meltRate : ℚ := 0.01

/-- `this.properties[PLANT].growthRate`. -/
def growthRate : ℚ := 0.01

/-! ### Cell store -/

/-- Per-cell metadata record (`this.metadata[i]`). -/
structure Meta where
  life : ℚ
  temp : ℚ
deriving DecidableEq

/-- Fresh metadata: `{ life: 0, temp: 20 }`. -/
def defaultMeta : Meta := { life := 0, temp := 20 }

/-- The grid state.  `gravity` models `this.parent.gravityStrength`. -/
structure Grid where
  width : ℤ
  height : ℤ
  grid : List ℤ
  metadata : List Meta
  gravity : ℤ
deriving DecidableEq

/-- Junk value modelling a raw `undefined` read from `this.grid`. -/
def junkCell : ℤ := -2

/-- Raw read `this.grid[i]` (no bounds guard in the source at these sites). -/
def cellAt (s : Grid) (i : ℤ) : ℤ :=
  if 0 ≤ i then s.grid.getD i.toNat junkCell else junkCell

/-- Raw read `this.metadata[i]`. -/
def metaAt (s : Grid) (i : ℤ) : Meta :=
  if 0 ≤ i then s.metadata.getD i.toNat defaultMeta else defaultMeta

/-- Raw write `this.grid[i] = v` (out-of-range writes cannot occur on the
paths the engine guards; they are modelled as no-ops). -/
def setCell (s : Grid) (i : ℤ) (v : ℤ) : Grid :=
  { s with grid := if 0 ≤ i then s.grid.set i.toNat v else s.grid }

/-- In-place mutation of the metadata record at index `i`
(`this.metadata[i].temp = …`, `meta.life--`, …). -/
def modifyMeta (s : Grid) (i : ℤ) (f : Meta → Meta) : Grid :=
  { s with metadata := if 0 ≤ i then s.metadata.set i.toNat (f (metaAt s i)) else s.metadata }

/-- The three-assignment swap idiom (`temp = a[n]; a[n] = a[m]; a[m] = temp`). -/
def listSwap (l : List α) (n m : ℕ) (d : α) : List α :=
  (l.set n (l.getD m d)).set m (l.getD n d)

/-- `new Grid(width, height, parent)`.  The constructor performs no
validation of its own; `new Array(width*height)` throws a `RangeError`
(here: `none`) exactly when `width*height` is not a valid array length,
i.e. when it is negative or at least `2^32` (= 4294967296), and otherwise
builds arrays of length `width*height` filled with `EMPTY` and fresh
metadata. -/
def mkGrid (width height gravity : ℤ) : Option Grid :=
  if width * height < 0 ∨ 4294967296 ≤ width * height then none
  else some
    { width := width
      height := height
      grid := List.replicate (width * height).toNat EMPTY
      metadata := List.replicate (width * height).toNat defaultMeta
      gravity := gravity }

/-- `inBounds(x, y)`. -/
def Grid.inBounds (s : Grid) (x y : ℤ) : Prop :=
  0 ≤ x ∧ x < s.width ∧ 0 ≤ y ∧ y < s.height

instance (s : Grid) (x y : ℤ) : Decidable (s.inBounds x y) := by
  unfold Grid.inBounds; infer_instance

/-- `set(x, y, value)`: guarded write of the material id, with kind-specific
metadata initialization for Fire, Acid and Steam. -/
def Grid.set (s : Grid) (x y value : ℤ) : Grid :=
  if s.inBounds x y then
    let index := y * s.width + x
    let s1 := setCell s index value
    if value = FIRE then
      modifyMeta s1 index (fun m => { m with temp := 400, life := lifespanOf FIRE })
    else if value = ACID then
      modifyMeta s1 index (fun m => { m with life := lifespanOf ACID })
    else if value = STEAM then
      modifyMeta s1 index (fun m => { m with temp := 110, life := lifespanOf STEAM })
    else s1
  else s

/-- `get(x, y)`: returns the material id, or `-1` when out of bounds. -/
def Grid.get (s : Grid) (x y : ℤ) : ℤ :=
  if s.inBounds x y then cellAt s (y * s.width + x) else -1

/-- `getMeta(x, y)`: returns the metadata record, or `null` (here `none`). -/
def Grid.getMeta (s : Grid) (x y : ℤ) : Option Meta :=
  if s.inBounds x y then some (metaAt s (y * s.width + x)) else none

/-- `swap(i1, i2)`: exchanges material and metadata, no-op unless both
indices are within `[0, grid.length)`. -/
def Grid.swap (s : Grid) (i1 i2 : ℤ) : Grid :=
  if 0 ≤ i1 ∧ i1 < (s.grid.length : ℤ) ∧ 0 ≤ i2 ∧ i2 < (s.grid.length : ℤ) then
    { s with
      grid := listSwap s.grid i1.toNat i2.toNat junkCell
      metadata := listSwap s.metadata i1.toNat i2.toNat defaultMeta }
  else s

/-- `isEmpty(index)`. -/
def Grid.isEmpty (s : Grid) (index : ℤ) : Bool :=
  if index < 0 ∨ (s.grid.length : ℤ) ≤ index then false
  else decide (cellAt s index = EMPTY)

/-- `isType(index, type)`. -/
def Grid.isType (s : Grid) (index : ℤ) (type : ℤ) : Bool :=
  if index < 0 ∨ (s.grid.length : ℤ) ≤ index then false
  else decide (cellAt s index = type)

/-- `canDisplace(i1, i2)`: the density-based displacement predicate.
`i % this.width` is JS truncated remainder (`Int.tmod`) and
`Math.floor(i / this.width)` is floor division (`Int.fdiv`). -/
def Grid.canDisplace (s : Grid) (i1 i2 : ℤ) : Bool :=
  if ¬ s.inBounds (Int.tmod i1 s.width) (Int.fdiv i1 s.width) ∨
     ¬ s.inBounds (Int.tmod i2 s.width) (Int.fdiv i2 s.width) then false
  else if cellAt s i2 = EMPTY then true
  else if cellAt s i2 = WALL then false
  else decide (density (cellAt s i2) < density (cellAt s i1))

/-! ### Randomness -/

/-- `Math.random()`, reading from an explicit stream. -/
def rngNext : List ℚ → ℚ × List ℚ
  | [] => (1, [])
  | q :: rest => (q, rest)

/-! ### Shape rasterizer -/

/-- `[a, a+1, …, b]` (the inclusive `for` loops of the rasterizer). -/
def rangeIncl (a b : ℤ) : List ℤ :=
  (List.range (b - a + 1).toNat).map (fun k => a + (k : ℤ))

/-- `setCircle(x, y, material, radius, probability)`: stamps `material` into
the Empty cells of a disk, each offset kept with probability `probability`. -/
def Grid.setCircle (s : Grid) (r : List ℚ) (x y material radius : ℤ) (probability : ℚ) :
    Grid × List ℚ :=
  (rangeIncl (-radius) radius).foldl (fun srj j =>
    (rangeIncl (-radius) radius).foldl (fun sr i =>
      if i * i + j * j ≤ radius * radius then
        match rngNext sr.2 with
        | (q, r1) =>
          if q < probability then
            let newX := x + i
            let newY := y + j
            if sr.1.inBounds newX newY ∧ sr.1.get newX newY = EMPTY then
              (sr.1.set newX newY material, r1)
            else (sr.1, r1)
          else (sr.1, r1)
      else sr) srj) (s, r)

/-- Loop body of `drawLine`'s Bresenham `while (true)` loop, structured on a
fuel argument.  The wrapper supplies fuel `|x2-x1| + |y2-y1| + 1`, which
bounds the number of iterations the JS loop performs. -/
def drawLineGo (x2 y2 material thickness dx dy sx sy : ℤ) :
    ℕ → Grid → List ℚ → ℤ → ℤ → ℤ → Grid × List ℚ
  | 0, s, r, _, _, _ => (s, r)
  | fuel + 1, s, r, x1, y1, err =>
    match Grid.setCircle s r x1 y1 material thickness 1 with
    | (s1, r1) =>
      if x1 = x2 ∧ y1 = y2 then (s1, r1)
      else
        let e2 := 2 * err
        let errA := if e2 > -dy then err - dy else err
        let x1A := if e2 > -dy then x1 + sx else x1
        let errB := if e2 < dx then errA + dx else errA
        let y1A := if e2 < dx then y1 + sy else y1
        drawLineGo x2 y2 material thickness dx dy sx sy fuel s1 r1 x1A y1A errB

/-- `drawLine(x1, y1, x2, y2, material, thickness)`: Bresenham stepping,
stamping a circle of radius `thickness` (probability 1) at each point. -/
def Grid.drawLine (s : Grid) (r : List ℚ) (x1 y1 x2 y2 material thickness : ℤ) :
    Grid × List ℚ :=
  let dx := |x2 - x1|
  let dy := |y2 - y1|
  let sx : ℤ := if x1 < x2 then 1 else -1
  let sy : ℤ := if y1 < y2 then 1 else -1
  drawLineGo x2 y2 material thickness dx dy sx sy (dx + dy + 1).toNat s r x1 y1 (dx - dy)

/-- `drawRect(x1, y1, x2, y2, material, filled)`.  Filled mode writes only
Empty cells of the normalized box; outline mode writes the border cells
unconditionally (the source has no Empty check there). -/
def Grid.drawRect (s : Grid) (x1 y1 x2 y2 material : ℤ) (filled : Bool) : Grid :=
  let startX := min x1 x2
  let endX := max x1 x2
  let startY := min y1 y2
  let endY := max y1 y2
  if filled then
    (rangeIncl startY endY).foldl (fun sy y =>
      (rangeIncl startX endX).foldl (fun sx x =>
        if sx.inBounds x y ∧ sx.get x y = EMPTY then sx.set x y material else sx) sy) s
  else
    let s1 := (rangeIncl startX endX).foldl (fun sx x =>
      let sa := if sx.inBounds x startY then sx.set x startY material else sx
      if sa.inBounds x endY then sa.set x endY material else sa) s
    (rangeIncl (startY + 1) (endY - 1)).foldl (fun sy y =>
      let sa := if sy.inBounds startX y then sy.set startX y material else sy
      if sa.inBounds endX y then sa.set endX y material else sa) s1

/-! ### Update engine: neighbor helpers -/

/-- The `(dx, dy)` offsets visited by the `dy`-outer/`dx`-inner Moore loops,
in source order, with `(0,0)` skipped. -/
def mooreOffsets : List (ℤ × ℤ) :=
  [(-1, -1), (0, -1), (1, -1), (-1, 0), (1, 0), (-1, 1), (0, 1), (1, 1)]

/-- `getNeighborIndices(x, y)`. -/
def getNeighborIndices (s : Grid) (x y : ℤ) : List ℤ :=
  (mooreOffsets.filter (fun d => decide (s.inBounds (x + d.1) (y + d.2)))).map
    (fun d => (y + d.2) * s.width + (x + d.1))

/-- `isNearMaterial(x, y, materialType)`. -/
def isNearMaterial (s : Grid) (x y materialType : ℤ) : Bool :=
  (getNeighborIndices s x y).any
    (fun n => decide (0 ≤ n ∧ n < (s.grid.length : ℤ) ∧ cellAt s n = materialType))

/-- `heatAndIgniteNearbySources(i, x, y)`: heat every non-Empty neighbor by
5°C and give each flammable neighbor a 10% chance to turn into Fire. -/
def heatAndIgniteNearbySources (s : Grid) (r : List ℚ) (i x y : ℤ) : Grid × List ℚ :=
  (getNeighborIndices s x y).foldl (fun sr n =>
    if 0 ≤ n ∧ n < (sr.1.grid.length : ℤ) ∧ cellAt sr.1 n ≠ EMPTY then
      let s1 := modifyMeta sr.1 n (fun m => { m with temp := m.temp + 5 })
      if flammable (cellAt s1 n) then
        match rngNext sr.2 with
        | (q, r1) =>
          if q < 0.1 then
            (modifyMeta (setCell s1 n FIRE) n
              (fun m => { m with life := lifespanOf FIRE, temp := 400 }), r1)
          else (s1, r1)
      else (s1, sr.2)
    else sr) (s, r)

/-- `extinguishNearbySources(i, x, y)`: each neighboring Fire cell has a 40%
chance to become Steam. -/
def extinguishNearbySources (s : Grid) (r : List ℚ) (i x y : ℤ) : Grid × List ℚ :=
  (getNeighborIndices s x y).foldl (fun sr n =>
    if 0 ≤ n ∧ n < (sr.1.grid.length : ℤ) ∧ cellAt sr.1 n = FIRE then
      match rngNext sr.2 with
      | (q, r1) =>
        if q < 0.4 then
          (modifyMeta (setCell sr.1 n STEAM) n
            (fun m => { m with life := lifespanOf STEAM, temp := 110 }), r1)
        else (sr.1, r1)
    else sr) (s, r)

/-- `dissolveNearbySources(i, x, y)`: each neighbor that is not
Empty/Acid/Steam passes a `dissolveRate` roll and then a second
`dissolveRate × resistFactor` roll to be erased to Empty. -/
def dissolveNearbySources (s : Grid) (r : List ℚ) (i x y : ℤ) : Grid × List ℚ :=
  (getNeighborIndices s x y).foldl (fun sr n =>
    if 0 ≤ n ∧ n < (sr.1.grid.length : ℤ) then
      let material := cellAt sr.1 n
      if material ≠ EMPTY ∧ material ≠ ACID ∧ material ≠ STEAM then
        match rngNext sr.2 with
        | (q, r1) =>
          if q < dissolveRate then
            let resistFactor : ℚ := if material = WALL then 0.1 else if material = SAND then 0.5 else 1.0
            match rngNext r1 with
            | (q2, r2) =>
              if q2 < dissolveRate * resistFactor then (setCell sr.1 n EMPTY, r2)
              else (sr.1, r2)
          else (sr.1, r1)
      else sr
    else sr) (s, r)

/-- `freezeNearbySources(i, x, y)`: cool each neighboring Water cell by 1°C;
if that drops it below 0°C, 10% chance (short-circuited roll) to freeze it. -/
def freezeNearbySources (s : Grid) (r : List ℚ) (i x y : ℤ) : Grid × List ℚ :=
  (getNeighborIndices s x y).foldl (fun sr n =>
    if 0 ≤ n ∧ n < (sr.1.grid.length : ℤ) ∧ cellAt sr.1 n = WATER then
      let s1 := modifyMeta sr.1 n (fun m => { m with temp := m.temp - 1 })
      if (metaAt s1 n).temp < 0 then
        match rngNext sr.2 with
        | (q, r1) => if q < 0.1 then (setCell s1 n ICE, r1) else (s1, r1)
      else (s1, sr.2)
    else sr) (s, r)

/-- The empty neighbor coordinates collected by `growPlant`. -/
def plantTargets (s : Grid) (x y : ℤ) : List (ℤ × ℤ) :=
  (mooreOffsets.filter (fun d =>
    decide (s.inBounds (x + d.1) (y + d.2) ∧ s.get (x + d.1) (y + d.2) = EMPTY))).map
    (fun d => (x + d.1, y + d.2))

/-- `growPlant(x, y)`: spawn a Plant in a uniformly chosen Empty neighbor.
(The `getD` default is never used when the stream value lies in `[0,1)`.) -/
def growPlant (s : Grid) (r : List ℚ) (x y : ℤ) : Grid × List ℚ :=
  let neighbors := plantTargets s x y
  if 0 < neighbors.length then
    match rngNext r with
    | (q, r1) =>
      let target := neighbors.getD (⌊q * (neighbors.length : ℚ)⌋).toNat (x, y)
      (s.set target.1 target.2 PLANT, r1)
  else (s, r)

/-! ### Update engine: per-material rules -/

/-- The common gravity loop shape `for (let g = 0; g < gravity; g++) { … }`
with `break`/`return` modelled by the body's continue flag. -/
def gravLoop (body : Grid → List ℚ → ℤ → (Grid × List ℚ) × Bool) :
    ℕ → ℤ → Grid → List ℚ → Grid × List ℚ
  | 0, _, s, r => (s, r)
  | n + 1, g, s, r =>
    match body s r g with
    | ((s1, r1), moved) => if moved then gravLoop body n (g + 1) s1 r1 else (s1, r1)

/-- One gravity sub-step of `updateSand`. -/
def sandSubstep (s : Grid) (r : List ℚ) (i x y g : ℤ) : (Grid × List ℚ) × Bool :=
  let currentY := y + g
  let currentI := i + g * s.width
  if s.height - 1 ≤ currentY then ((s, r), false)
  else
    let below := currentI + s.width
    let belowLeft := below - 1
    let belowRight := below + 1
    if s.canDisplace currentI below then ((s.swap currentI below, r), true)
    else if 0 < x ∧ s.canDisplace currentI belowLeft then ((s.swap currentI belowLeft, r), true)
    else if x < s.width - 1 ∧ s.canDisplace currentI belowRight then
      ((s.swap currentI belowRight, r), true)
    else ((s, r), false)

/-- `updateSand(i, x, y)`. -/
def updateSand (s : Grid) (r : List ℚ) (i x y : ℤ) : Grid × List ℚ :=
  gravLoop (fun s1 r1 g => sandSubstep s1 r1 i x y g) s.gravity.toNat 0 s r

/-- The movement part of a Water gravity sub-step (down, down-left,
down-right by density; otherwise sideways with a 50/50 direction roll). -/
def waterMove (s : Grid) (r : List ℚ) (currentI currentX : ℤ) : (Grid × List ℚ) × Bool :=
  let below := currentI + s.width
  let left := currentI - 1
  let right := currentI + 1
  let belowLeft := below - 1
  let belowRight := below + 1
  if s.canDisplace currentI below then ((s.swap currentI below, r), true)
  else if 0 < currentX ∧ s.canDisplace currentI belowLeft then
    ((s.swap currentI belowLeft, r), true)
  else if currentX < s.width - 1 ∧ s.canDisplace currentI belowRight then
    ((s.swap currentI belowRight, r), true)
  else
    match rngNext r with
    | (q, r1) =>
      if q < 0.5 then
        if 0 < currentX ∧ s.canDisplace currentI left then ((s.swap currentI left, r1), true)
        else if currentX < s.width - 1 ∧ s.canDisplace currentI right then
          ((s.swap currentI right, r1), true)
        else ((s, r1), false)
      else
        if currentX < s.width - 1 ∧ s.canDisplace currentI right then
          ((s.swap currentI right, r1), true)
        else if 0 < currentX ∧ s.canDisplace currentI left then ((s.swap currentI left, r1), true)
        else ((s, r1), false)

/-- The phase-change part of a Water gravity sub-step.  Both checks read and
write the cell at index `currentI` — the sub-step's starting position, not
the particle's position after a move. -/
def waterPhase (s : Grid) (r : List ℚ) (currentI : ℤ) : Grid × List ℚ :=
  let sr1 :=
    if 99 < (metaAt s currentI).temp then
      match rngNext r with
      | (q, r1) =>
        if q < 0.1 then
          (modifyMeta (setCell s currentI STEAM) currentI
            (fun m => { m with life := lifespanOf STEAM, temp := 110 }), r1)
        else (s, r1)
    else (s, r)
  if (metaAt sr1.1 currentI).temp < 0 then
    match rngNext sr1.2 with
    | (q, r2) => if q < 0.05 then (setCell sr1.1 currentI ICE, r2) else (sr1.1, r2)
  else sr1

/-- One gravity sub-step of `updateWater`: movement, then the phase checks,
then extinguishing adjacent Fire. -/
def waterSubstep (s : Grid) (r : List ℚ) (i x y g : ℤ) : (Grid × List ℚ) × Bool :=
  let currentY := y + g
  let currentI := i + g * s.width
  let currentX := x
  if s.height - 1 ≤ currentY then ((s, r), false)
  else
    match waterMove s r currentI currentX with
    | ((s1, r1), moved) =>
      match waterPhase s1 r1 currentI with
      | (s2, r2) =>
        match extinguishNearbySources s2 r2 currentI currentX currentY with
        | (s3, r3) => ((s3, r3), moved)

/-- `updateWater(i, x, y)`. -/
def updateWater (s : Grid) (r : List ℚ) (i x y : ℤ) : Grid × List ℚ :=
  gravLoop (fun s1 r1 g => waterSubstep s1 r1 i x y g) s.gravity.toNat 0 s r

/-- The movement part of an Oil gravity sub-step: down is unconditional,
the diagonal and horizontal branches are gated by extra 30% rolls. -/
def oilMove (s : Grid) (r : List ℚ) (currentI currentX : ℤ) : (Grid × List ℚ) × Bool :=
  let below := currentI + s.width
  let left := currentI - 1
  let right := currentI + 1
  let belowLeft := below - 1
  let belowRight := below + 1
  if s.canDisplace currentI below then ((s.swap currentI below, r), true)
  else
    match rngNext r with
    | (q1, r1) =>
      if q1 < 0.3 ∧ 0 < currentX ∧ s.canDisplace currentI belowLeft then
        ((s.swap currentI belowLeft, r1), true)
      else
        match rngNext r1 with
        | (q2, r2) =>
          if q2 < 0.3 ∧ currentX < s.width - 1 ∧ s.canDisplace currentI belowRight then
            ((s.swap currentI belowRight, r2), true)
          else
            match rngNext r2 with
            | (q3, r3) =>
              if q3 < 0.3 then
                match rngNext r3 with
                | (q4, r4) =>
                  if q4 < 0.5 ∧ 0 < currentX ∧ s.canDisplace currentI left then
                    ((s.swap currentI left, r4), true)
                  else if currentX < s.width - 1 ∧ s.canDisplace currentI right then
                    ((s.swap currentI right, r4), true)
                  else ((s, r4), false)
              else ((s, r3), false)

/-- The ignition part of an Oil gravity sub-step: when hot or near Fire, a
20% chance to convert the cell at `currentI` to Fire. -/
def oilIgnite (s : Grid) (r : List ℚ) (currentI currentX currentY : ℤ) : Grid × List ℚ :=
  if 220 < (metaAt s currentI).temp ∨ isNearMaterial s currentX currentY FIRE then
    match rngNext r with
    | (q, rr) =>
      if q < 0.2 then
        (modifyMeta (setCell s currentI FIRE) currentI
          (fun m => { m with life := lifespanOf FIRE, temp := 400 }), rr)
      else (s, rr)
  else (s, r)

/-- One gravity sub-step of `updateOil`: the gated movement, then the
ignition check. -/
def oilSubstep (s : Grid) (r : List ℚ) (i x y g : ℤ) : (Grid × List ℚ) × Bool :=
  let currentY := y + g
  let currentI := i + g * s.width
  let currentX := x
  if s.height - 1 ≤ currentY then ((s, r), false)
  else
    match oilMove s r currentI currentX with
    | ((s1, r1), moved) => (oilIgnite s1 r1 currentI currentX currentY, moved)

/-- `updateOil(i, x, y)`: gravity sub-steps `max(1, gravityStrength - 1)`. -/
def updateOil (s : Grid) (r : List ℚ) (i x y : ℤ) : Grid × List ℚ :=
  gravLoop (fun s1 r1 g => oilSubstep s1 r1 i x y g) (max 1 (s.gravity - 1)).toNat 0 s r

/-- `updateFire(i, x, y)`.  The JS local `meta` is a reference into the
metadata array that travels with the particle through `swap`; the moved
index is tracked so the final flicker-temperature write follows it. -/
def updateFire (s : Grid) (r : List ℚ) (i x y : ℤ) : Grid × List ℚ :=
  let s0 := modifyMeta s i (fun m => { m with life := m.life - 1 })
  if (metaAt s0 i).life ≤ 0 then
    (modifyMeta (setCell s0 i EMPTY) i (fun m => { m with temp := 20 }), r)
  else
    let above := i - s0.width
    let aboveLeft := above - 1
    let aboveRight := above + 1
    let moveRes :=
      if 0 < y ∧ s0.isEmpty above then (s0.swap i above, above)
      else if 0 < y ∧ 0 < x ∧ s0.isEmpty aboveLeft then (s0.swap i aboveLeft, aboveLeft)
      else if 0 < y ∧ x < s0.width - 1 ∧ s0.isEmpty aboveRight then
        (s0.swap i aboveRight, aboveRight)
      else (s0, i)
    match moveRes with
    | (s1, fireI) =>
      match heatAndIgniteNearbySources s1 r i x y with
      | (s2, r2) =>
        match rngNext r2 with
        | (q, r3) =>
          let s3 :=
            if q < 0.05 ∧ 0 < y ∧ s2.isEmpty above then
              modifyMeta (setCell s2 above STEAM) above
                (fun m => { m with life := lifespanOf STEAM })
            else s2
          match rngNext r3 with
          | (q2, r4) =>
            (modifyMeta s3 fireI (fun m => { m with temp := 350 + ((⌊q2 * 100⌋ : ℤ) : ℚ) }), r4)

/-- `updateSteam(i, x, y)`.  As with Fire, the moved index is tracked so the
final cooling write (`meta.temp -= 0.2`) follows the particle. -/
def updateSteam (s : Grid) (r : List ℚ) (i x y : ℤ) : Grid × List ℚ :=
  let s0 := modifyMeta s i (fun m => { m with life := m.life - 1 })
  let m0 := metaAt s0 i
  if m0.life ≤ 0 ∨ m0.temp < 90 then
    let sr1 :=
      if m0.temp < 90 then
        match rngNext r with
        | (q, rr) => if q < 0.2 then (setCell s0 i WATER, rr) else (setCell s0 i EMPTY, rr)
      else (setCell s0 i EMPTY, r)
    (modifyMeta sr1.1 i (fun m => { m with temp := 20 }), sr1.2)
  else
    let above := i - s0.width
    let left := i - 1
    let right := i + 1
    let aboveLeft := above - 1
    let aboveRight := above + 1
    let moveRes :=
      if 0 < y ∧ s0.isEmpty above then ((s0.swap i above, r), above)
      else if 0 < y ∧ 0 < x ∧ s0.isEmpty aboveLeft then ((s0.swap i aboveLeft, r), aboveLeft)
      else if 0 < y ∧ x < s0.width - 1 ∧ s0.isEmpty aboveRight then
        ((s0.swap i aboveRight, r), aboveRight)
      else
        match rngNext r with
        | (q, r1) =>
          if q < 0.5 ∧ 0 < x ∧ s0.isEmpty left then ((s0.swap i left, r1), left)
          else if x < s0.width - 1 ∧ s0.isEmpty right then ((s0.swap i right, r1), right)
          else ((s0, r1), i)
    match moveRes with
    | ((s1, r1), steamI) =>
      (modifyMeta s1 steamI (fun m => { m with temp := m.temp - 0.2 }), r1)

/-- One gravity sub-step of `updateAcid` (movement only; the 70% horizontal
gate precedes the 50/50 direction roll). -/
def acidSubstep (s : Grid) (r : List ℚ) (i x y g : ℤ) : (Grid × List ℚ) × Bool :=
  let currentY := y + g
  let currentI := i + g * s.width
  let currentX := x
  if s.height - 1 ≤ currentY then ((s, r), false)
  else
    let below := currentI + s.width
    let left := currentI - 1
    let right := currentI + 1
    let belowLeft := below - 1
    let belowRight := below + 1
    if s.canDisplace currentI below then ((s.swap currentI below, r), true)
    else if 0 < currentX ∧ s.canDisplace currentI belowLeft then
      ((s.swap currentI belowLeft, r), true)
    else if currentX < s.width - 1 ∧ s.canDisplace currentI belowRight then
      ((s.swap currentI belowRight, r), true)
    else
      match rngNext r with
      | (q, r1) =>
        if q < 0.7 then
          match rngNext r1 with
          | (q2, r2) =>
            if q2 < 0.5 ∧ 0 < currentX ∧ s.canDisplace currentI left then
              ((s.swap currentI left, r2), true)
            else if currentX < s.width - 1 ∧ s.canDisplace currentI right then
              ((s.swap currentI right, r2), true)
            else ((s, r2), false)
        else ((s, r1), false)

/-- `updateAcid(i, x, y)`: lifespan decay, dissolution of neighbors, then
water-like movement. -/
def updateAcid (s : Grid) (r : List ℚ) (i x y : ℤ) : Grid × List ℚ :=
  let s0 := modifyMeta s i (fun m => { m with life := m.life - 1 })
  if (metaAt s0 i).life ≤ 0 then (setCell s0 i EMPTY, r)
  else
    match dissolveNearbySources s0 r i x y with
    | (s1, r1) => gravLoop (fun sa ra g => acidSubstep sa ra i x y g) s0.gravity.toNat 0 s1 r1

/-- `updateIce(i, x, y)`: melt chance `meltRate × temp` when warm, then a 2%
chance to freeze nearby water. -/
def updateIce (s : Grid) (r : List ℚ) (i x y : ℤ) : Grid × List ℚ :=
  let m := metaAt s i
  let sr1 :=
    if 0 < m.temp then
      let meltChance := meltRate * m.temp
      match rngNext r with
      | (q, rr) =>
        if q < meltChance then
          (modifyMeta (setCell s i WATER) i (fun mm => { mm with temp := 2 }), rr)
        else (s, rr)
    else (s, r)
  match rngNext sr1.2 with
  | (q, r2) => if q < 0.02 then freezeNearbySources sr1.1 r2 i x y else (sr1.1, r2)

/-- `updatePlant(i, x, y)`: growth next to Water, ignition when hot or next
to Fire. -/
def updatePlant (s : Grid) (r : List ℚ) (i x y : ℤ) : Grid × List ℚ :=
  let sr1 :=
    if isNearMaterial s x y WATER then
      match rngNext r with
      | (q, rr) => if q < growthRate then growPlant s rr x y else (s, rr)
    else (s, r)
  if 150 < (metaAt sr1.1 i).temp ∨ isNearMaterial sr1.1 x y FIRE then
    match rngNext sr1.2 with
    | (q, r2) =>
      if q < 0.1 then
        (modifyMeta (setCell sr1.1 i FIRE) i
          (fun m => { m with life := lifespanOf FIRE, temp := 400 }), r2)
      else (sr1.1, r2)
  else sr1

/-- `updateTemperature(i)`: pairwise heat exchange with non-Empty neighbors
followed by slow relaxation toward ambient 20°C.  Consumes no randomness. -/
def updateTemperature (s : Grid) (i : ℤ) : Grid :=
  if i < 0 ∨ (s.grid.length : ℤ) ≤ i ∨ cellAt s i = EMPTY then s
  else
    let x := Int.tmod i s.width
    let y := Int.fdiv i s.width
    let s1 := (getNeighborIndices s x y).foldl (fun sa n =>
      if 0 ≤ n ∧ n < (sa.grid.length : ℤ) ∧ cellAt sa n ≠ EMPTY then
        let selfTemp := (metaAt sa i).temp
        let neighborTemp := (metaAt sa n).temp
        if selfTemp ≠ neighborTemp then
          let transferAmount := (selfTemp - neighborTemp) * 0.1
          let sb := modifyMeta sa i (fun m => { m with temp := m.temp - transferAmount * 0.5 })
          modifyMeta sb n (fun m => { m with temp := m.temp + transferAmount * 0.5 })
        else sa
      else sa) s
    if (metaAt s1 i).temp ≠ 20 then
      modifyMeta s1 i (fun m => { m with temp := m.temp + (20 - m.temp) * 0.001 })
    else s1

/-! ### Update engine: the tick -/

/-- Dispatch of the first (falling materials) pass at cell `(x, y)`. -/
def dispatchA (sr : Grid × List ℚ) (x y : ℤ) : Grid × List ℚ :=
  let i := y * sr.1.width + x
  let material := cellAt sr.1 i
  if material = SAND then updateSand sr.1 sr.2 i x y
  else if material = WATER then updateWater sr.1 sr.2 i x y
  else if material = OIL then updateOil sr.1 sr.2 i x y
  else if material = ACID then updateAcid sr.1 sr.2 i x y
  else if material = ICE then updateIce sr.1 sr.2 i x y
  else sr

/-- Dispatch of the second (rising materials) pass at cell `(x, y)`. -/
def dispatchB (sr : Grid × List ℚ) (x y : ℤ) : Grid × List ℚ :=
  let i := y * sr.1.width + x
  let material := cellAt sr.1 i
  if material = FIRE then updateFire sr.1 sr.2 i x y
  else if material = STEAM then updateSteam sr.1 sr.2 i x y
  else if material = PLANT then updatePlant sr.1 sr.2 i x y
  else sr

/-- The alternating column visit order of a row (`rowDirection`). -/
def colOrder (w y : ℤ) : List ℤ :=
  (List.range w.toNat).map (fun x0 => if y % 2 = 0 then (x0 : ℤ) else w - 1 - (x0 : ℤ))

/-- One row of the first pass. -/
def rowA (sr : Grid × List ℚ) (y : ℤ) : Grid × List ℚ :=
  (colOrder sr.1.width y).foldl (fun sr2 x => dispatchA sr2 x y) sr

/-- First pass: rows bottom-to-top. -/
def passA (sr : Grid × List ℚ) : Grid × List ℚ :=
  ((List.range sr.1.height.toNat).reverse.map (fun n => (n : ℤ))).foldl rowA sr

/-- One row of the second pass. -/
def rowB (sr : Grid × List ℚ) (y : ℤ) : Grid × List ℚ :=
  (colOrder sr.1.width y).foldl (fun sr2 x => dispatchB sr2 x y) sr

/-- Second pass: rows top-to-bottom. -/
def passB (sr : Grid × List ℚ) : Grid × List ℚ :=
  ((List.range sr.1.height.toNat).map (fun n => (n : ℤ))).foldl rowB sr

/-- Third pass: temperature update over all indices. -/
def passC (sr : Grid × List ℚ) : Grid × List ℚ :=
  ((List.range sr.1.grid.length).map (fun n => (n : ℤ))).foldl
    (fun sr2 n => (updateTemperature sr2.1 n, sr2.2)) sr

/-- `update()`: one tick = pass A, then pass B, then pass C. -/
def Grid.update (s : Grid) (r : List ℚ) : Grid × List ℚ :=
  passC (passB (passA (s, r)))

/-- `n` consecutive ticks. -/
def ticks : ℕ → Grid → List ℚ → Grid × List ℚ
  | 0, s, r => (s, r)
  | n + 1, s, r => ticks n (Grid.update s r).1 (Grid.update s r).2

/-! ### Concrete states used by witnesses and counterexamples -/

/-- Fallback grid for `Option.getD` on constructor results. -/
def gDummy : Grid := { width := 0, height := 0, grid := [], metadata := [], gravity := 1 }

/-- A 2×2 grid with Sand at (0,0) and a Wall at (0,1), gravityStrength 1. -/
def demoGrid : Grid := (((mkGrid 2 2 1).getD gDummy).set 0 0 SAND).set 0 1 WALL

/-- 10×10 Empty grid with one Sand cell at (5,0), gravityStrength 1. -/
def sandStart : Grid := ((mkGrid 10 10 1).getD gDummy).set 5 0 SAND

/-- The raw 10×10 Empty grid (what `new Grid(10, 10, …)` builds). -/
def tenGrid : Grid :=
  { width := 10, height := 10, grid := List.replicate 100 EMPTY,
    metadata := List.replicate 100 defaultMeta, gravity := 1 }

/-- 2×1 grid with Acid at (0,0) next to a Wall at (1,0). -/
def acidWall : Grid := (((mkGrid 2 1 1).getD gDummy).set 0 0 ACID).set 1 0 WALL

/-- 1×1 grid holding a single Sand cell. -/
def rectStart : Grid := ((mkGrid 1 1 1).getD gDummy).set 0 0 SAND

/-- 1×2 grid: 150°C Water at (0,0) above an Empty cell. -/
def hotWater : Grid :=
  { ((mkGrid 1 2 1).getD gDummy).set 0 0 WATER with
      metadata := [{ life := 0, temp := 150 }, defaultMeta] }

/-- 1×2 grid: 150°C Water at (0,0) above a Wall (the water cannot move). -/
def hotWaterOnWall : Grid :=
  { (((mkGrid 1 2 1).getD gDummy).set 0 0 WATER).set 0 1 WALL with
      metadata := [{ life := 0, temp := 150 }, defaultMeta] }

/-- 1×1 grid holding one Fire cell placed by `set` (lifespan 100, 400°C). -/
def fireStart : Grid := ((mkGrid 1 1 1).getD gDummy).set 0 0 FIRE

/-- The 1×1 state with a Fire cell of lifespan `L` and temperature `T`. -/
def fireState (L T : ℚ) : Grid :=
  { width := 1, height := 1, grid := [FIRE], metadata := [{ life := L, temp := T }], gravity := 1 }

/-- The 1×1 state after the Fire cell has burned out. -/
def deadFire (L : ℚ) : Grid :=
  { width := 1, height := 1, grid := [EMPTY], metadata := [{ life := L, temp := 20 }], gravity := 1 }

/-! ### Predicates used by the invariant proofs -/

/-- `t` preserves every non-Empty cell of `s` exactly (material and metadata). -/
def Keeps (s t : Grid) : Prop :=
  ∀ j : ℤ, cellAt s j ≠ EMPTY → (cellAt t j = cellAt s j ∧ metaAt t j = metaAt s j)

/-- No cell of `s` holds Acid. -/
def AcidFree (s : Grid) : Prop := ∀ j : ℤ, cellAt s j ≠ ACID

/-- Every Wall cell of `s` is still a Wall cell of `t`. -/
def WallsKeep (s t : Grid) : Prop := ∀ j : ℤ, cellAt s j = WALL → cellAt t j = WALL

/-- Invariant transported by one engine step on an Acid-free state. -/
def Step (s t : Grid) : Prop :=
  AcidFree s → AcidFree t ∧ WallsKeep s t ∧ t.gravity = s.gravity

/-! ## Lemmas: lists -/

theorem getD_set_eq {α : Type} (l : List α) (n k : ℕ) (v d : α) :
    (l.set n v).getD k d = if n = k ∧ n < l.length then v else l.getD k d := by
  rw [List.getD_eq_getElem?_getD, List.getD_eq_getElem?_getD, List.getElem?_set]
  by_cases h1 : n = k
  · subst h1
    by_cases h2 : n < l.length
    · simp [h2]
    · simp [h2, List.getElem?_eq_none (Nat.le_of_not_lt h2)]
  · simp [h1]

theorem getD_eq_getElem {α : Type} (l : List α) (n : ℕ) (d : α) (h : n < l.length) :
    l.getD n d = l[n] := by
  rw [List.getD_eq_getElem?_getD, List.getElem?_eq_getElem h]; rfl

theorem getD_mem_or {α : Type} (l : List α) (n : ℕ) (d : α) :
    l.getD n d ∈ l ∨ l.getD n d = d := by
  by_cases h : n < l.length
  · rw [getD_eq_getElem l n d h]; exact Or.inl (l.getElem_mem h)
  · rw [List.getD_eq_getElem?_getD, List.getElem?_eq_none (Nat.le_of_not_lt h)]
    exact Or.inr rfl

theorem length_listSwap {α : Type} (l : List α) (n m : ℕ) (d : α) :
    (listSwap l n m d).length = l.length := by
  simp [listSwap]

theorem getD_listSwap {α : Type} (l : List α) (n m k : ℕ) (d : α) :
    (listSwap l n m d).getD k d =
      if m = k ∧ m < l.length then l.getD n d
      else if n = k ∧ n < l.length then l.getD m d
      else l.getD k d := by
  unfold listSwap
  rw [getD_set_eq, getD_set_eq]
  simp only [List.length_set]

theorem getElem?_listSwap {α : Type} (l : List α) (n m k : ℕ) (d : α)
    (hn : n < l.length) (hm : m < l.length) :
    (listSwap l n m d)[k]? =
      if m = k then some (l.getD n d) else if n = k then some (l.getD m d) else l[k]? := by
  unfold listSwap
  rw [List.getElem?_set, List.getElem?_set]
  simp only [List.length_set]
  by_cases h1 : m = k
  · subst h1; simp [hm]
  · simp only [h1, if_false]
    by_cases h2 : n = k
    · subst h2; simp [hn]
    · simp [h2]

theorem listSwap_invol {α : Type} (l : List α) (n m : ℕ) (d : α)
    (hn : n < l.length) (hm : m < l.length) :
    listSwap (listSwap l n m d) n m d = l := by
  have hlen := length_listSwap l n m d
  apply List.ext_getElem?
  intro k
  rw [getElem?_listSwap _ n m k d (by omega) (by omega)]
  by_cases h1 : m = k
  · subst h1
    rw [if_pos rfl, getD_listSwap]
    by_cases h2 : m = n
    · subst h2; simp [hm, getD_eq_getElem l m d hm, List.getElem?_eq_getElem hm]
    · rw [if_neg (by omega), if_pos ⟨rfl, hn⟩, getD_eq_getElem l m d hm,
        List.getElem?_eq_getElem hm]
  · rw [if_neg h1]
    by_cases h2 : n = k
    · subst h2
      rw [if_pos rfl, getD_listSwap, if_pos ⟨rfl, hm⟩, getD_eq_getElem l n d hn,
        List.getElem?_eq_getElem hn]
    · rw [if_neg h2, getElem?_listSwap _ n m k d hn hm, if_neg h1, if_neg h2]

/-! ## Lemmas: cell store primitives -/

theorem cellAt_setCell_ne (s : Grid) (i v j : ℤ) (h : i ≠ j) :
    cellAt (setCell s i v) j = cellAt s j := by
  unfold cellAt setCell
  by_cases hi : 0 ≤ i
  · simp only [if_pos hi]
    by_cases hj : 0 ≤ j
    · simp only [if_pos hj]
      rw [getD_set_eq, if_neg (show ¬(i.toNat = j.toNat ∧ i.toNat < s.grid.length) by omega)]
    · simp only [if_neg hj]
  · simp only [if_neg hi]

theorem cellAt_setCell_self (s : Grid) (i v : ℤ) (h0 : 0 ≤ i) (hl : i.toNat < s.grid.length) :
    cellAt (setCell s i v) i = v := by
  unfold cellAt setCell
  simp only [if_pos h0]
  rw [getD_set_eq, if_pos ⟨rfl, hl⟩]

theorem cellAt_setCell_or (s : Grid) (i v j : ℤ) :
    cellAt (setCell s i v) j = cellAt s j ∨ cellAt (setCell s i v) j = v := by
  by_cases h : i = j
  · subst h
    by_cases h0 : 0 ≤ i
    · by_cases hl : i.toNat < s.grid.length
      · exact Or.inr (cellAt_setCell_self s i v h0 hl)
      · left
        unfold cellAt setCell
        simp only [if_pos h0]
        rw [getD_set_eq, if_neg (fun hc => hl hc.2)]
    · left
      unfold cellAt setCell
      simp only [if_neg h0]
  · exact Or.inl (cellAt_setCell_ne s i v j h)

theorem metaAt_modifyMeta_ne (s : Grid) (i : ℤ) (f : Meta → Meta) (j : ℤ) (h : i ≠ j) :
    metaAt (modifyMeta s i f) j = metaAt s j := by
  unfold metaAt modifyMeta
  by_cases hi : 0 ≤ i
  · simp only [if_pos hi]
    by_cases hj : 0 ≤ j
    · simp only [if_pos hj]
      rw [getD_set_eq, if_neg (show ¬(i.toNat = j.toNat ∧ i.toNat < s.metadata.length) by omega)]
    · simp only [if_neg hj]
  · simp only [if_neg hi]

theorem metaAt_modifyMeta_self (s : Grid) (i : ℤ) (f : Meta → Meta)
    (h0 : 0 ≤ i) (hl : i.toNat < s.metadata.length) :
    metaAt (modifyMeta s i f) i = f (metaAt s i) := by
  unfold metaAt modifyMeta
  simp only [if_pos h0]
  rw [getD_set_eq, if_pos ⟨rfl, hl⟩]
  rw [show metaAt s i = s.metadata.getD i.toNat defaultMeta from by
    unfold metaAt; rw [if_pos h0]]

theorem metaAt_modifyMeta_or (s : Grid) (i : ℤ) (f : Meta → Meta) (j : ℤ) :
    metaAt (modifyMeta s i f) j = metaAt s j ∨
      metaAt (modifyMeta s i f) j = f (metaAt s i) := by
  by_cases h : i = j
  · subst h
    by_cases h0 : 0 ≤ i
    · by_cases hl : i.toNat < s.metadata.length
      · exact Or.inr (metaAt_modifyMeta_self s i f h0 hl)
      · left
        unfold metaAt modifyMeta
        simp only [if_pos h0]
        rw [getD_set_eq, if_neg (fun hc => hl hc.2)]
    · left
      unfold metaAt modifyMeta
      simp only [if_neg h0]
  · exact Or.inl (metaAt_modifyMeta_ne s i f j h)

theorem metaAt_setCell (s : Grid) (i v j : ℤ) : metaAt (setCell s i v) j = metaAt s j := rfl

theorem cellAt_modifyMeta (s : Grid) (i : ℤ) (f : Meta → Meta) (j : ℤ) :
    cellAt (modifyMeta s i f) j = cellAt s j := rfl

theorem swap_width (s : Grid) (a b : ℤ) : (s.swap a b).width = s.width := by
  unfold Grid.swap; split <;> rfl

theorem swap_height (s : Grid) (a b : ℤ) : (s.swap a b).height = s.height := by
  unfold Grid.swap; split <;> rfl

theorem swap_gravity (s : Grid) (a b : ℤ) : (s.swap a b).gravity = s.gravity := by
  unfold Grid.swap; split <;> rfl

theorem swap_grid_length (s : Grid) (a b : ℤ) : (s.swap a b).grid.length = s.grid.length := by
  unfold Grid.swap; split
  · exact length_listSwap _ _ _ _
  · rfl

theorem cellAt_swap_eq (s : Grid) (a b j : ℤ) :
    cellAt (s.swap a b) j =
      if 0 ≤ a ∧ a < (s.grid.length : ℤ) ∧ 0 ≤ b ∧ b < (s.grid.length : ℤ) then
        (if b = j then cellAt s a else if a = j then cellAt s b else cellAt s j)
      else cellAt s j := by
  unfold Grid.swap
  by_cases hg : 0 ≤ a ∧ a < (s.grid.length : ℤ) ∧ 0 ≤ b ∧ b < (s.grid.length : ℤ)
  · rw [if_pos hg, if_pos hg]
    obtain ⟨ha0, hal, hb0, hbl⟩ := hg
    unfold cellAt
    by_cases hj : 0 ≤ j
    · simp only [if_pos hj]
      rw [getD_listSwap]
      by_cases hbj : b = j
      · rw [if_pos (by omega), if_pos hbj, if_pos ha0]
      · rw [if_neg (by omega), if_neg hbj]
        by_cases haj : a = j
        · rw [if_pos (by omega), if_pos haj, if_pos hb0]
        · rw [if_neg (by omega), if_neg haj]
    · simp only [if_neg hj]
      rw [if_neg (by omega), if_neg (by omega)]
  · rw [if_neg hg, if_neg hg]

theorem metaAt_swap_eq (s : Grid) (a b j : ℤ) :
    metaAt (s.swap a b) j =
      if 0 ≤ a ∧ a < (s.grid.length : ℤ) ∧ 0 ≤ b ∧ b < (s.grid.length : ℤ) then
        (if b = j ∧ b < (s.metadata.length : ℤ) then metaAt s a
         else if a = j ∧ a < (s.metadata.length : ℤ) then metaAt s b
         else metaAt s j)
      else metaAt s j := by
  unfold Grid.swap
  by_cases hg : 0 ≤ a ∧ a < (s.grid.length : ℤ) ∧ 0 ≤ b ∧ b < (s.grid.length : ℤ)
  · rw [if_pos hg, if_pos hg]
    obtain ⟨ha0, hal, hb0, hbl⟩ := hg
    unfold metaAt
    by_cases hj : 0 ≤ j
    · simp only [if_pos hj]
      rw [getD_listSwap]
      by_cases hbj : b = j ∧ b < (s.metadata.length : ℤ)
      · rw [if_pos (by omega), if_pos hbj, if_pos ha0]
      · rw [if_neg (by omega), if_neg hbj]
        by_cases haj : a = j ∧ a < (s.metadata.length : ℤ)
        · rw [if_pos (by omega), if_pos haj, if_pos hb0]
        · rw [if_neg (by omega), if_neg haj]
    · simp only [if_neg hj]
      rw [if_neg (by omega), if_neg (by omega)]
  · rw [if_neg hg, if_neg hg]

theorem cellAt_swap_or (s : Grid) (a b j : ℤ) :
    cellAt (s.swap a b) j = cellAt s j ∨ cellAt (s.swap a b) j = cellAt s a ∨
      cellAt (s.swap a b) j = cellAt s b := by
  rw [cellAt_swap_eq]; split_ifs <;> tauto

theorem cellAt_swap_of_ne (s : Grid) (a b j : ℤ) (h1 : j ≠ a) (h2 : j ≠ b) :
    cellAt (s.swap a b) j = cellAt s j := by
  rw [cellAt_swap_eq]
  split_ifs with hg hb ha
  · omega
  · omega
  · rfl
  · rfl

theorem metaAt_swap_of_ne (s : Grid) (a b j : ℤ) (h1 : j ≠ a) (h2 : j ≠ b) :
    metaAt (s.swap a b) j = metaAt s j := by
  rw [metaAt_swap_eq]
  split_ifs with hg hb ha
  · exact absurd hb.1 (by omega)
  · exact absurd ha.1 (by omega)
  · rfl
  · rfl

theorem cellAt_swap_src (s : Grid) (a b : ℤ) :
    cellAt (s.swap a b) a = cellAt s b ∨ cellAt (s.swap a b) a = cellAt s a := by
  rw [cellAt_swap_eq]; split_ifs <;> tauto

/-! ## Lemmas: swap components -/

theorem Grid.ext' (s t : Grid) (h1 : s.width = t.width) (h2 : s.height = t.height)
    (h3 : s.grid = t.grid) (h4 : s.metadata = t.metadata) (h5 : s.gravity = t.gravity) :
    s = t := by
  cases s; cases t; simp_all

theorem swap_grid_eq (s : Grid) (i j : ℤ)
    (hg : 0 ≤ i ∧ i < (s.grid.length : ℤ) ∧ 0 ≤ j ∧ j < (s.grid.length : ℤ)) :
    (s.swap i j).grid = listSwap s.grid i.toNat j.toNat junkCell := by
  unfold Grid.swap; rw [if_pos hg]

theorem swap_metadata_eq (s : Grid) (i j : ℤ)
    (hg : 0 ≤ i ∧ i < (s.grid.length : ℤ) ∧ 0 ≤ j ∧ j < (s.grid.length : ℤ)) :
    (s.swap i j).metadata = listSwap s.metadata i.toNat j.toNat defaultMeta := by
  unfold Grid.swap; rw [if_pos hg]

theorem swap_metadata_length (s : Grid) (a b : ℤ) :
    (s.swap a b).metadata.length = s.metadata.length := by
  unfold Grid.swap; split
  · exact length_listSwap _ _ _ _
  · rfl

/-! ## Claim C1: the displacement predicate -/

theorem inBounds_of_index (s : Grid) (i : ℤ) (hw : 0 < s.width)
    (h0 : 0 ≤ i) (hi : i < s.width * s.height) :
    s.inBounds (Int.tmod i s.width) (Int.fdiv i s.width) := by
  rw [Int.tmod_eq_emod h0 (le_of_lt hw), Int.fdiv_eq_ediv _ (le_of_lt hw)]
  refine ⟨Int.emod_nonneg i (by omega), Int.emod_lt_of_pos i hw,
    Int.ediv_nonneg h0 (le_of_lt hw), ?_⟩
  rw [Int.ediv_lt_iff_lt_mul hw]
  calc i < s.width * s.height := hi
    _ = s.height * s.width := mul_comm _ _

/-- Claim C1: over two in-bounds cells, `canDisplace(i1, i2)` returns true
iff the target cell is Empty, or the target is not Wall and the source
material's density is strictly greater than the target material's density —
for every pair of cell contents. -/
theorem canDisplace_density_rule (s : Grid) (i1 i2 : ℤ)
    (hw : 0 < s.width)
    (h10 : 0 ≤ i1) (h1 : i1 < s.width * s.height)
    (h20 : 0 ≤ i2) (h2 : i2 < s.width * s.height) :
    (s.canDisplace i1 i2 = true ↔
      (cellAt s i2 = EMPTY ∨
        (cellAt s i2 ≠ WALL ∧ density (cellAt s i2) < density (cellAt s i1)))) := by
  unfold Grid.canDisplace
  rw [if_neg (by
    push_neg
    exact ⟨inBounds_of_index s i1 hw h10 h1, inBounds_of_index s i2 hw h20 h2⟩)]
  by_cases he : cellAt s i2 = EMPTY
  · simp [he]
  · rw [if_neg he]
    by_cases hwall : cellAt s i2 = WALL
    · simp only [hwall, if_pos]
      simp [he, hwall]
      decide
    · rw [if_neg hwall]
      simp [he, hwall]

theorem canDisplace_density_rule_witness :
    (demoGrid.canDisplace 0 1 = true ↔
      (cellAt demoGrid 1 = EMPTY ∨
        (cellAt demoGrid 1 ≠ WALL ∧ density (cellAt demoGrid 1) < density (cellAt demoGrid 0)))) :=
  canDisplace_density_rule demoGrid 0 1 (by decide) (by decide) (by decide) (by decide) (by decide)

/-! ## Claim C5: out-of-bounds leniency -/

/-- Claim C5: out-of-bounds access is lenient: `get` returns `-1`, which is
no valid material id, and `set`/`swap` with out-of-range arguments leave the
state entirely unchanged. -/
theorem out_of_bounds_lenient (s : Grid) (x y v i1 i2 : ℤ)
    (hxy : ¬ s.inBounds x y)
    (hsw : ¬ (0 ≤ i1 ∧ i1 < (s.grid.length : ℤ) ∧ 0 ≤ i2 ∧ i2 < (s.grid.length : ℤ))) :
    (s.get x y = -1 ∧ ∀ m ∈ materialIds, s.get x y ≠ m) ∧
    s.set x y v = s ∧
    s.swap i1 i2 = s := by
  refine ⟨⟨?_, ?_⟩, ?_, ?_⟩
  · unfold Grid.get; rw [if_neg hxy]
  · unfold Grid.get; rw [if_neg hxy]
    intro m hm
    have hm10 : m = 0 ∨ m = 1 ∨ m = 2 ∨ m = 3 ∨ m = 4 ∨ m = 5 ∨ m = 6 ∨ m = 7 ∨
        m = 8 ∨ m = 9 := by
      simpa [materialIds, EMPTY, SAND, WATER, WALL, FIRE, OIL, PLANT, ACID, ICE, STEAM]
        using hm
    omega
  · unfold Grid.set; rw [if_neg hxy]
  · unfold Grid.swap; rw [if_neg hsw]

theorem out_of_bounds_lenient_witness :
    (demoGrid.get (-1) 0 = -1 ∧ ∀ m ∈ materialIds, demoGrid.get (-1) 0 ≠ m) ∧
    demoGrid.set (-1) 0 SAND = demoGrid ∧
    demoGrid.swap (-1) 0 = demoGrid :=
  out_of_bounds_lenient demoGrid (-1) 0 SAND (-1) 0 (by decide) (by decide)

/-! ## Claim C6: swap is an involution carrying metadata -/

/-- Claim C6: for in-bounds indices, `swap(i,j)` twice restores the state
exactly; a single `swap(i,j)` exchanges material and metadata together and
touches no other cell and no other field. -/
theorem swap_involution (s : Grid) (i j : ℤ)
    (h0i : 0 ≤ i) (hil : i < (s.grid.length : ℤ))
    (h0j : 0 ≤ j) (hjl : j < (s.grid.length : ℤ))
    (hlen : s.metadata.length = s.grid.length) :
    (s.swap i j).swap i j = s ∧
    cellAt (s.swap i j) i = cellAt s j ∧ cellAt (s.swap i j) j = cellAt s i ∧
    metaAt (s.swap i j) i = metaAt s j ∧ metaAt (s.swap i j) j = metaAt s i ∧
    (∀ k : ℤ, k ≠ i → k ≠ j →
      cellAt (s.swap i j) k = cellAt s k ∧ metaAt (s.swap i j) k = metaAt s k) ∧
    (s.swap i j).width = s.width ∧ (s.swap i j).height = s.height ∧
    (s.swap i j).gravity = s.gravity := by
  have hg : 0 ≤ i ∧ i < (s.grid.length : ℤ) ∧ 0 ≤ j ∧ j < (s.grid.length : ℤ) :=
    ⟨h0i, hil, h0j, hjl⟩
  have hg2 : 0 ≤ i ∧ i < ((s.swap i j).grid.length : ℤ) ∧ 0 ≤ j ∧
      j < ((s.swap i j).grid.length : ℤ) := by
    rw [swap_grid_length]; exact hg
  refine ⟨?_, ?_, ?_, ?_, ?_, ?_, swap_width s i j, swap_height s i j, swap_gravity s i j⟩
  · apply Grid.ext'
    · rw [swap_width, swap_width]
    · rw [swap_height, swap_height]
    · rw [swap_grid_eq _ _ _ hg2, swap_grid_eq _ _ _ hg]
      exact listSwap_invol _ _ _ _ (by omega) (by omega)
    · rw [swap_metadata_eq _ _ _ hg2, swap_metadata_eq _ _ _ hg]
      exact listSwap_invol _ _ _ _ (by omega) (by omega)
    · rw [swap_gravity, swap_gravity]
  · rw [cellAt_swap_eq, if_pos hg]
    by_cases hje : j = i
    · rw [if_pos hje, hje]
    · rw [if_neg hje, if_pos rfl]
  · rw [cellAt_swap_eq, if_pos hg]
    by_cases hje : j = j
    · rw [if_pos hje]
    · exact absurd rfl hje
  · rw [metaAt_swap_eq, if_pos hg]
    by_cases hje : j = i
    · rw [if_pos ⟨hje, by omega⟩, hje]
    · rw [if_neg (fun hc => hje hc.1), if_pos ⟨rfl, by omega⟩]
  · rw [metaAt_swap_eq, if_pos hg, if_pos ⟨rfl, by omega⟩]
  · intro k hki hkj
    exact ⟨cellAt_swap_of_ne s i j k hki hkj, metaAt_swap_of_ne s i j k hki hkj⟩

theorem swap_involution_witness :
    (demoGrid.swap 0 3).swap 0 3 = demoGrid ∧
    cellAt (demoGrid.swap 0 3) 0 = cellAt demoGrid 3 ∧
    cellAt (demoGrid.swap 0 3) 3 = cellAt demoGrid 0 ∧
    metaAt (demoGrid.swap 0 3) 0 = metaAt demoGrid 3 ∧
    metaAt (demoGrid.swap 0 3) 3 = metaAt demoGrid 0 ∧
    (∀ k : ℤ, k ≠ 0 → k ≠ 3 →
      cellAt (demoGrid.swap 0 3) k = cellAt demoGrid k ∧
      metaAt (demoGrid.swap 0 3) k = metaAt demoGrid k) ∧
    (demoGrid.swap 0 3).width = demoGrid.width ∧
    (demoGrid.swap 0 3).height = demoGrid.height ∧
    (demoGrid.swap 0 3).gravity = demoGrid.gravity :=
  swap_involution demoGrid 0 3 (by decide) (by decide) (by decide) (by decide) (by decide)

/-! ## Claim C10: metadata frame condition of `set` -/

/-- Claim C10: for an in-bounds coordinate and any material other than Fire,
Acid and Steam, `set(x, y, kind)` writes only the material id; the metadata
array is left exactly unchanged. -/
theorem set_metadata_frame (s : Grid) (x y v : ℤ)
    (hin : s.inBounds x y)
    (hv : v = EMPTY ∨ v = SAND ∨ v = WATER ∨ v = WALL ∨ v = OIL ∨ v = PLANT ∨ v = ICE) :
    (s.set x y v).metadata = s.metadata ∧
    (s.set x y v).grid = s.grid.set (y * s.width + x).toNat v := by
  unfold Grid.set
  rw [if_pos hin]
  have hfire : ¬ v = FIRE := by rcases hv with rfl|rfl|rfl|rfl|rfl|rfl|rfl <;> decide
  have hacid : ¬ v = ACID := by rcases hv with rfl|rfl|rfl|rfl|rfl|rfl|rfl <;> decide
  have hsteam : ¬ v = STEAM := by rcases hv with rfl|rfl|rfl|rfl|rfl|rfl|rfl <;> decide
  rw [if_neg hfire, if_neg hacid, if_neg hsteam]
  have hin' : 0 ≤ x ∧ x < s.width ∧ 0 ≤ y ∧ y < s.height := hin
  have hidx : 0 ≤ y * s.width + x := by
    have : 0 ≤ y * s.width := mul_nonneg hin'.2.2.1 (by omega)
    omega
  unfold setCell
  rw [if_pos hidx]
  exact ⟨rfl, rfl⟩

theorem set_metadata_frame_witness :
    (demoGrid.set 1 1 ICE).metadata = demoGrid.metadata ∧
    (demoGrid.set 1 1 ICE).grid = demoGrid.grid.set (1 * demoGrid.width + 1).toNat ICE :=
  set_metadata_frame demoGrid 1 1 ICE (by decide) (by decide)

/-! ## Claim C9: constructor validation -/

/-- Claim C9 counterexample: the claimed validation does not happen in
either direction — `width = 0`, `height = 0` and even `width = height = -1`
are accepted by the constructor, while the positive dimensions
`65536 × 65536` are rejected (`new Array(width*height)` throws a
`RangeError` for any length at least `2^32`). -/
theorem mkGrid_nonpositive_accepted :
    (mkGrid 0 5 1).isSome = true ∧ (mkGrid 5 0 1).isSome = true ∧
    (mkGrid (-1) (-1) 1).isSome = true ∧ mkGrid 65536 65536 1 = none := by decide

/-- Claim C9 (amended): construction fails exactly when `width*height` is
not a valid array length — negative, or at least `2^32` = 4294967296 (the
`new Array` `RangeError`); whenever the product lies in `[0, 2^32)` it
succeeds with both arrays of length `width*height`, cleared to Empty and
ambient metadata.  In particular dimensions such as `(0, h)` or `(-1, -1)`
are not rejected, and huge positive dimensions are. -/
theorem mkGrid_spec (w h g : ℤ) :
    (mkGrid w h g = none ↔ (w * h < 0 ∨ 4294967296 ≤ w * h)) ∧
    (0 ≤ w * h → w * h < 4294967296 →
      mkGrid w h g = some
        { width := w, height := h,
          grid := List.replicate (w * h).toNat EMPTY,
          metadata := List.replicate (w * h).toNat defaultMeta,
          gravity := g }) := by
  unfold mkGrid
  constructor
  · constructor
    · intro hnone
      by_contra hc
      rw [if_neg hc] at hnone
      exact Option.some_ne_none _ hnone
    · intro hcond
      rw [if_pos hcond]
  · intro h0 h32
    rw [if_neg (by omega)]

theorem mkGrid_spec_witness :
    (mkGrid (-1) 5 1 = none ↔ ((-1 : ℤ) * 5 < 0 ∨ 4294967296 ≤ (-1 : ℤ) * 5)) ∧
    mkGrid 2 3 1 = some
      { width := 2, height := 3, grid := List.replicate 6 EMPTY,
        metadata := List.replicate 6 defaultMeta, gravity := 1 } :=
  ⟨(mkGrid_spec (-1) 5 1).1, (mkGrid_spec 2 3 1).2 (by decide) (by decide)⟩

/-! ## Claim C3: the rasterizer writes only Empty cells (amended) -/

theorem keeps_refl (s : Grid) : Keeps s s := fun _ _ => ⟨rfl, rfl⟩

theorem keeps_trans {s t u : Grid} (h1 : Keeps s t) (h2 : Keeps t u) : Keeps s u := by
  intro j hj
  obtain ⟨hc, hm⟩ := h1 j hj
  obtain ⟨hc2, hm2⟩ := h2 j (by rw [hc]; exact hj)
  exact ⟨hc2.trans hc, hm2.trans hm⟩

theorem foldl_pres {σ β : Type} (P : σ → Prop) (step : σ → β → σ) (l : List β)
    (h : ∀ acc b, P acc → P (step acc b)) :
    ∀ acc, P acc → P (l.foldl step acc) := by
  induction l with
  | nil => exact fun _ hp => hp
  | cons a t ih => exact fun acc hp => ih _ (h acc a hp)

theorem keeps_set_of_empty (s : Grid) (x y v : ℤ) (he : s.get x y = EMPTY) :
    Keeps s (s.set x y v) := by
  intro j hj
  unfold Grid.set
  by_cases hin : s.inBounds x y
  · rw [if_pos hin]
    unfold Grid.get at he
    rw [if_pos hin] at he
    have hne : y * s.width + x ≠ j := fun hc => hj (by rw [← hc]; exact he)
    split_ifs with h1 h2 h3
    · rw [cellAt_modifyMeta, cellAt_setCell_ne _ _ _ _ hne,
        metaAt_modifyMeta_ne _ _ _ _ hne, metaAt_setCell]
      exact ⟨rfl, rfl⟩
    · rw [cellAt_modifyMeta, cellAt_setCell_ne _ _ _ _ hne,
        metaAt_modifyMeta_ne _ _ _ _ hne, metaAt_setCell]
      exact ⟨rfl, rfl⟩
    · rw [cellAt_modifyMeta, cellAt_setCell_ne _ _ _ _ hne,
        metaAt_modifyMeta_ne _ _ _ _ hne, metaAt_setCell]
      exact ⟨rfl, rfl⟩
    · rw [cellAt_setCell_ne _ _ _ _ hne, metaAt_setCell]
      exact ⟨rfl, rfl⟩
  · rw [if_neg hin]
    exact ⟨rfl, rfl⟩

theorem keeps_setCircle (s : Grid) (r : List ℚ) (x y material radius : ℤ) (p : ℚ) :
    Keeps s (Grid.setCircle s r x y material radius p).1 := by
  unfold Grid.setCircle
  refine foldl_pres (fun sr => Keeps s sr.1) _ _ ?_ (s, r) (keeps_refl s)
  intro acc j hacc
  refine foldl_pres (fun sr => Keeps s sr.1) _ _ ?_ acc hacc
  intro acc2 i hacc2
  split_ifs with hdisk
  · rcases hrq : rngNext acc2.2 with ⟨q, r1⟩
    simp only [hrq]
    split_ifs with hq hcond
    · exact keeps_trans hacc2 (keeps_set_of_empty acc2.1 (x + i) (y + j) material hcond.2)
    · exact hacc2
    · exact hacc2
  · exact hacc2

theorem keeps_drawLineGo (x2 y2 material thickness dx dy sx sy : ℤ) :
    ∀ (fuel : ℕ) (s : Grid) (r : List ℚ) (x1 y1 err : ℤ),
      Keeps s (drawLineGo x2 y2 material thickness dx dy sx sy fuel s r x1 y1 err).1 := by
  intro fuel
  induction fuel with
  | zero => exact fun s _ _ _ _ => keeps_refl s
  | succ n ih =>
    intro s r x1 y1 err
    unfold drawLineGo
    rcases hsc : Grid.setCircle s r x1 y1 material thickness 1 with ⟨s1, r1⟩
    simp only [hsc]
    have h1 : Keeps s s1 := by
      have h2 := keeps_setCircle s r x1 y1 material thickness 1
      rw [hsc] at h2
      exact h2
    split_ifs <;> first
      | exact h1
      | exact keeps_trans h1 (ih s1 r1 _ _ _)

theorem keeps_drawLine (s : Grid) (r : List ℚ) (x1 y1 x2 y2 material thickness : ℤ) :
    Keeps s (Grid.drawLine s r x1 y1 x2 y2 material thickness).1 := by
  unfold Grid.drawLine
  exact keeps_drawLineGo _ _ _ _ _ _ _ _ _ _ _ _ _ _

theorem keeps_drawRect_filled (s : Grid) (x1 y1 x2 y2 material : ℤ) :
    Keeps s (s.drawRect x1 y1 x2 y2 material true) := by
  unfold Grid.drawRect
  rw [if_pos rfl]
  refine foldl_pres (fun t => Keeps s t) _ _ ?_ s (keeps_refl s)
  intro acc y hacc
  refine foldl_pres (fun t => Keeps s t) _ _ ?_ acc hacc
  intro acc2 x hacc2
  split_ifs with hcond
  · exact keeps_trans hacc2 (keeps_set_of_empty acc2 x y material hcond.2)
  · exact hacc2

/-- Claim C3 (amended): `setCircle`, `drawLine` and filled-mode `drawRect`
write a cell only if it currently holds Empty: no cell holding a non-Empty
material is changed (material or metadata) by those calls.  Outline-mode
`drawRect` is the exception the counterexample exhibits: it writes the
border cells unconditionally, overwriting non-Empty material. -/
theorem rasterizer_preserves_nonempty (s : Grid) (r : List ℚ)
    (x1 y1 x2 y2 material radius thickness : ℤ) (p : ℚ) :
    Keeps s (Grid.setCircle s r x1 y1 material radius p).1 ∧
    Keeps s (Grid.drawLine s r x1 y1 x2 y2 material thickness).1 ∧
    Keeps s (s.drawRect x1 y1 x2 y2 material true) :=
  ⟨keeps_setCircle s r x1 y1 material radius p,
   keeps_drawLine s r x1 y1 x2 y2 material thickness,
   keeps_drawRect_filled s x1 y1 x2 y2 material⟩

theorem rasterizer_preserves_nonempty_witness :
    cellAt (Grid.setCircle demoGrid [] 0 0 WATER 1 1).1 2 = cellAt demoGrid 2 ∧
    metaAt (Grid.setCircle demoGrid [] 0 0 WATER 1 1).1 2 = metaAt demoGrid 2 :=
  (rasterizer_preserves_nonempty demoGrid [] 0 0 1 1 WATER 1 1 1).1 2 (by decide)

/-- Claim C3 counterexample: on a 1×1 grid holding Sand, outline-mode
`drawRect(0,0,0,0,WALL,false)` replaces the Sand by Wall — the operation
writes a cell that does not hold Empty. -/
theorem drawRect_outline_overwrites :
    cellAt rectStart 0 = SAND ∧
    cellAt (rectStart.drawRect 0 0 0 0 WALL false) 0 = WALL := by decide

/-! ## Claim C7: deterministic sand settling -/

set_option maxRecDepth 1000000 in
/-- Claim C7: on the 10×10 grid that is Empty except Sand at (5,0), with
gravityStrength 1, nine ticks leave exactly one non-Empty cell: Sand at
(5,9) (index 95) — the particle drops one row per tick and stops at the
bottom row.  The run is deterministic: it consumes no randomness, shown by
running it on the two extreme streams (the exhausted stream, on which every
probabilistic event fails, and an all-zero stream, on which every
probabilistic event fires) and observing the identical final state and the
untouched stream. -/
theorem sand_settles :
    ticks 9 sandStart [] =
      ({ tenGrid with grid := (List.replicate 100 EMPTY).set 95 SAND }, []) ∧
    ticks 9 sandStart (List.replicate 8 0) =
      ({ tenGrid with grid := (List.replicate 100 EMPTY).set 95 SAND },
        List.replicate 8 0) := by
  decide

/-! ## Claim C4: Water phase changes target the sub-step's starting cell -/

theorem self_not_mem_neighbors (s : Grid) (x y : ℤ) (hx0 : 0 ≤ x) (hxw : x < s.width) :
    y * s.width + x ∉ getNeighborIndices s x y := by
  intro hmem
  unfold getNeighborIndices at hmem
  rw [List.mem_map] at hmem
  obtain ⟨d, hd, heq⟩ := hmem
  rw [List.mem_filter] at hd
  obtain ⟨hdm, hpred⟩ := hd
  have hin : 0 ≤ x + d.1 ∧ x + d.1 < s.width ∧ 0 ≤ y + d.2 ∧ y + d.2 < s.height :=
    of_decide_eq_true hpred
  obtain ⟨h1, h2, h3, h4⟩ := hin
  simp only [mooreOffsets, List.mem_cons, List.not_mem_nil, or_false] at hdm
  rcases hdm with rfl|rfl|rfl|rfl|rfl|rfl|rfl|rfl <;>
    (simp only at h1 h2 h3 h4 heq; ring_nf at heq; linarith)

theorem foldl_frame (l : List ℤ) (step : (Grid × List ℚ) → ℤ → (Grid × List ℚ)) (j : ℤ)
    (h : ∀ acc n, n ∈ l →
      cellAt (step acc n).1 j = cellAt acc.1 j ∧ metaAt (step acc n).1 j = metaAt acc.1 j) :
    ∀ acc, cellAt (l.foldl step acc).1 j = cellAt acc.1 j ∧
      metaAt (l.foldl step acc).1 j = metaAt acc.1 j := by
  induction l with
  | nil => exact fun _ => ⟨rfl, rfl⟩
  | cons a t ih =>
    intro acc
    have h2 := ih (fun acc2 n hn => h acc2 n (List.mem_cons_of_mem a hn)) (step acc a)
    have h1 := h acc a (List.mem_cons_self a t)
    exact ⟨h2.1.trans h1.1, h2.2.trans h1.2⟩

theorem extinguish_frame (s : Grid) (r : List ℚ) (i0 x y j : ℤ)
    (hj : j ∉ getNeighborIndices s x y) :
    cellAt (extinguishNearbySources s r i0 x y).1 j = cellAt s j ∧
    metaAt (extinguishNearbySources s r i0 x y).1 j = metaAt s j := by
  unfold extinguishNearbySources
  refine foldl_frame _ _ j ?_ (s, r)
  intro acc n hn
  have hnj : n ≠ j := fun hc => hj (hc ▸ hn)
  split_ifs with h1
  · rcases hq : rngNext acc.2 with ⟨q, r1⟩
    simp only [hq]
    split_ifs with h2
    · exact ⟨by rw [cellAt_modifyMeta, cellAt_setCell_ne _ _ _ _ hnj],
             by rw [metaAt_modifyMeta_ne _ _ _ _ hnj, metaAt_setCell]⟩
    · exact ⟨rfl, rfl⟩
  · exact ⟨rfl, rfl⟩

theorem getNeighborIndices_congr (s t : Grid) (hw : s.width = t.width)
    (hh : s.height = t.height) (x y : ℤ) :
    getNeighborIndices s x y = getNeighborIndices t x y := by
  unfold getNeighborIndices Grid.inBounds
  simp only [hw, hh]

/-- Claim C4 counterexample: hot Water (150°C, above 99°C) over an Empty
cell, with every roll favorable (all-zero stream, so the claimed 10%
Steam-conversion roll would succeed).  After one tick the particle has moved
down and is still Water — no Steam appears anywhere — because the phase
check reads the vacated cell (the swapped-in Empty cell's 20°C metadata),
not the particle. -/
theorem water_phase_missed_after_move :
    99 < (metaAt hotWater 0).temp ∧
    cellAt hotWater 0 = WATER ∧
    (Grid.update hotWater [0, 0, 0, 0, 0]).1.grid = [EMPTY, WATER] := by decide

/-- Claim C4 (amended): the temperature-triggered phase checks of a Water
sub-step read and write the cell at the sub-step's starting index
`currentI`, not the particle's position after a move.  In a sub-step where
the particle does not move, `currentI` still holds the Water particle, so
the checks do apply to the particle itself: with metadata temperature above
99°C and a conversion roll below 0.1, that cell becomes Steam with lifespan
and temperature reinitialized (and the sub-step reports no movement).  In a
sub-step where the particle has just moved, the same checks apply to the
material that swapped into `currentI` (see the counterexample). -/
theorem waterPhase_targets_start_cell (s : Grid) (q0 q1 : ℚ) (rest : List ℚ) (i x y : ℤ)
    (hidx : i = y * s.width + x)
    (hx0 : 0 ≤ x) (hxw : x < s.width) (hy0 : 0 ≤ y) (hyh : y < s.height - 1)
    (hglen : (s.grid.length : ℤ) = s.width * s.height)
    (hmlen : s.metadata.length = s.grid.length)
    (hwater : cellAt s i = WATER)
    (hb : s.canDisplace i (i + s.width) = false)
    (hbl : s.canDisplace i (i + s.width - 1) = false)
    (hbr : s.canDisplace i (i + s.width + 1) = false)
    (hleft : s.canDisplace i (i - 1) = false)
    (hright : s.canDisplace i (i + 1) = false)
    (htemp : 99 < (metaAt s i).temp)
    (hq1 : q1 < 0.1) :
    (waterSubstep s (q0 :: q1 :: rest) i x y 0).2 = false ∧
    cellAt (waterSubstep s (q0 :: q1 :: rest) i x y 0).1.1 i = STEAM ∧
    (metaAt (waterSubstep s (q0 :: q1 :: rest) i x y 0).1.1 i).life = lifespanOf STEAM ∧
    (metaAt (waterSubstep s (q0 :: q1 :: rest) i x y 0).1.1 i).temp = 110 := by
  have hwpos : 0 < s.width := by omega
  have hi0 : 0 ≤ i := by
    have := mul_nonneg hy0 (le_of_lt hwpos)
    omega
  have hiwh : i < s.width * s.height := by nlinarith
  have hil : i.toNat < s.grid.length := by omega
  have himl : i.toNat < s.metadata.length := by omega
  have h00 : i + 0 * s.width = i := by ring
  have hy00 : y + 0 = y := by ring
  unfold waterSubstep
  rw [if_neg (by omega : ¬ s.height - 1 ≤ y + 0)]
  have hmv : waterMove s (q0 :: q1 :: rest) (i + 0 * s.width) x = ((s, q1 :: rest), false) := by
    rw [h00]
    unfold waterMove
    rw [if_neg (by simp [hb]), if_neg (by simp [hbl]), if_neg (by simp [hbr])]
    simp only [rngNext]
    split_ifs with hq0 c1 c2 c3 c4
    · exact absurd c1.2 (by simp [hleft])
    · exact absurd c2.2 (by simp [hright])
    · rfl
    · exact absurd c3.2 (by simp [hright])
    · exact absurd c4.2 (by simp [hleft])
    · rfl
  rw [hmv]
  dsimp only
  have hph : waterPhase s (q1 :: rest) (i + 0 * s.width) =
      (modifyMeta (setCell s i STEAM) i
        (fun m => { m with life := lifespanOf STEAM, temp := 110 }), rest) := by
    rw [h00]
    unfold waterPhase
    rw [if_pos htemp]
    simp only [rngNext]
    rw [if_pos hq1]
    rw [if_neg ?hnotcold]
    case hnotcold =>
      dsimp only
      rw [metaAt_modifyMeta_self (setCell s i STEAM) i _ hi0 himl]
      norm_num
  rw [hph]
  have hcell2 : cellAt (modifyMeta (setCell s i STEAM) i
      (fun m => { m with life := lifespanOf STEAM, temp := 110 })) i = STEAM := by
    rw [cellAt_modifyMeta, cellAt_setCell_self s i STEAM hi0 hil]
  have hmeta2 : metaAt (modifyMeta (setCell s i STEAM) i
      (fun m => { m with life := lifespanOf STEAM, temp := 110 })) i =
      { metaAt s i with life := lifespanOf STEAM, temp := 110 } := by
    rw [metaAt_modifyMeta_self (setCell s i STEAM) i _ hi0 himl]
  rcases hex : extinguishNearbySources (modifyMeta (setCell s i STEAM) i
      (fun m => { m with life := lifespanOf STEAM, temp := 110 })) rest
      (i + 0 * s.width) x (y + 0) with ⟨s3, r3⟩
  simp only [hex]
  have hnm : i ∉ getNeighborIndices (modifyMeta (setCell s i STEAM) i
      (fun m => { m with life := lifespanOf STEAM, temp := 110 })) x (y + 0) := by
    rw [getNeighborIndices_congr (modifyMeta (setCell s i STEAM) i
      (fun m => { m with life := lifespanOf STEAM, temp := 110 })) s rfl rfl, hy00, hidx]
    exact self_not_mem_neighbors s x y hx0 hxw
  have hfr := extinguish_frame _ rest (i + 0 * s.width) x (y + 0) i hnm
  rw [hex] at hfr
  refine ⟨trivial, ?_, ?_, ?_⟩
  · rw [hfr.1, hcell2]
  · rw [hfr.2, hmeta2]
  · rw [hfr.2, hmeta2]

theorem waterPhase_targets_start_cell_witness :
    (waterSubstep hotWaterOnWall [0, 0] 0 0 0 0).2 = false ∧
    cellAt (waterSubstep hotWaterOnWall [0, 0] 0 0 0 0).1.1 0 = STEAM ∧
    (metaAt (waterSubstep hotWaterOnWall [0, 0] 0 0 0 0).1.1 0).life = lifespanOf STEAM ∧
    (metaAt (waterSubstep hotWaterOnWall [0, 0] 0 0 0 0).1.1 0).temp = 110 :=
  waterPhase_targets_start_cell hotWaterOnWall 0 0 [] 0 0 0 (by decide) (by decide)
    (by decide) (by decide) (by decide) (by decide) (by decide) (by decide) (by decide)
    (by decide) (by decide) (by decide) (by decide) (by decide) (by decide)

/-! ## Claim C8: bounded Fire lifespan decay (on the isolated 1×1 scenario) -/

theorem passA_fireState (L T : ℚ) (r : List ℚ) :
    passA (fireState L T, r) = (fireState L T, r) := rfl

theorem passB_fireState (L T : ℚ) (r : List ℚ) :
    passB (fireState L T, r) = updateFire (fireState L T) r 0 0 0 := rfl

theorem updateFire_dead (L T : ℚ) (r : List ℚ) (h : L - 1 ≤ 0) :
    updateFire (fireState L T) r 0 0 0 = (deadFire (L - 1), r) := by
  unfold updateFire
  rw [if_pos (show (metaAt (modifyMeta (fireState L T) 0
    (fun m => { m with life := m.life - 1 })) 0).life ≤ 0 from h)]
  rfl

theorem updateFire_alive (L T : ℚ) (r : List ℚ) (h : ¬ (L - 1 ≤ 0)) :
    updateFire (fireState L T) r 0 0 0 =
      (fireState (L - 1) (350 + ((⌊(rngNext (rngNext r).2).1 * 100⌋ : ℤ) : ℚ)),
        (rngNext (rngNext r).2).2) := by
  unfold updateFire
  rw [if_neg (show ¬ (metaAt (modifyMeta (fireState L T) 0
    (fun m => { m with life := m.life - 1 })) 0).life ≤ 0 from h)]
  simp only [lt_self_iff_false, false_and, and_false, if_false]
  rfl

theorem updateTemperature_fireState (L T : ℚ) :
    updateTemperature (fireState L T) 0 = fireState L (T + (20 - T) * 0.001) := by
  by_cases hT : T = 20
  · subst hT
    have h20 : (20 : ℚ) + (20 - 20) * 0.001 = 20 := by norm_num
    rw [h20]
    rfl
  · unfold updateTemperature
    rw [if_neg (show ¬ ((0 : ℤ) < 0 ∨ ((fireState L T).grid.length : ℤ) ≤ 0 ∨
        cellAt (fireState L T) 0 = EMPTY) from by
      rintro (hc | hc | hc)
      · exact absurd hc (by decide)
      · exact absurd hc (by norm_num [fireState])
      · exact absurd hc (by norm_num [fireState, cellAt, FIRE, EMPTY]))]
    rw [if_pos (show (metaAt ((getNeighborIndices (fireState L T) (Int.tmod 0 (fireState L T).width)
        (Int.fdiv 0 (fireState L T).width)).foldl _ (fireState L T)) 0).temp ≠ 20 from hT)]
    rfl

theorem passC_fireState (L T : ℚ) (r : List ℚ) :
    passC (fireState L T, r) = (fireState L (T + (20 - T) * 0.001), r) := by
  show (updateTemperature (fireState L T) 0, r) = _
  rw [updateTemperature_fireState]

theorem update_fireState_dead (L T : ℚ) (r : List ℚ) (h : L - 1 ≤ 0) :
    Grid.update (fireState L T) r = (deadFire (L - 1), r) := by
  unfold Grid.update
  rw [passA_fireState, passB_fireState, updateFire_dead L T r h]
  rfl

theorem update_fireState_alive (L T : ℚ) (r : List ℚ) (h : ¬ (L - 1 ≤ 0)) :
    Grid.update (fireState L T) r =
      (fireState (L - 1)
        ((350 + ((⌊(rngNext (rngNext r).2).1 * 100⌋ : ℤ) : ℚ)) +
          (20 - (350 + ((⌊(rngNext (rngNext r).2).1 * 100⌋ : ℤ) : ℚ))) * 0.001),
        (rngNext (rngNext r).2).2) := by
  unfold Grid.update
  rw [passA_fireState, passB_fireState, updateFire_alive L T r h]
  exact passC_fireState _ _ _

theorem ticks_fireState (k : ℕ) :
    ∀ (L T : ℚ) (r : List ℚ), (k : ℚ) ≤ L - 1 →
      ∃ T2 r2, ticks k (fireState L T) r = (fireState (L - k) T2, r2) := by
  induction k with
  | zero =>
    intro L T r h
    refine ⟨T, r, ?_⟩
    norm_num [ticks]
  | succ n ih =>
    intro L T r h
    have hn : (0 : ℚ) ≤ (n : ℚ) := Nat.cast_nonneg n
    have hcast : ((n : ℕ) + 1 : ℚ) ≤ L - 1 := by exact_mod_cast h
    have h1 : ¬ (L - 1 ≤ 0) := by push_cast at hcast; linarith
    have heq : ticks (n + 1) (fireState L T) r =
        ticks n (Grid.update (fireState L T) r).1 (Grid.update (fireState L T) r).2 := rfl
    rw [heq, update_fireState_alive L T r h1]
    obtain ⟨T2, r2, hrec⟩ := ih (L - 1) _ _ (by linarith [hcast])
    refine ⟨T2, r2, ?_⟩
    dsimp only
    rw [hrec]
    have hL : L - 1 - (n : ℚ) = L - ((n + 1 : ℕ) : ℚ) := by push_cast; ring
    rw [hL]

theorem ticks_add (a b : ℕ) (s : Grid) (r : List ℚ) :
    ticks (a + b) s r = ticks b (ticks a s r).1 (ticks a s r).2 := by
  induction a generalizing s r with
  | zero => rw [Nat.zero_add]; rfl
  | succ n ih =>
    rw [Nat.succ_add]
    have h1 : ∀ (m : ℕ) (s2 : Grid) (r2 : List ℚ),
        ticks (m + 1) s2 r2 = ticks m (Grid.update s2 r2).1 (Grid.update s2 r2).2 :=
      fun _ _ _ => rfl
    rw [h1, h1]
    exact ih _ _

set_option maxHeartbeats 1000000 in
/-- Claim C8: a Fire cell placed by `set` (lifespan 100), left alone (1×1
grid, so no further ignition input and no Water), is still Fire with
lifespan `100 - k` after every tick `k ≤ 99`, and becomes Empty with its
temperature reset to ambient 20°C exactly on the 100th tick — each tick
first decrements the lifespan and converts only when the decremented value
reaches ≤ 0.  Holds for every random stream. -/
theorem fire_decays_at_exactly_100 (r : List ℚ) (k : ℕ) (hk : k ≤ 99) :
    cellAt (ticks k fireStart r).1 0 = FIRE ∧
    (metaAt (ticks k fireStart r).1 0).life = 100 - (k : ℚ) ∧
    (ticks 100 fireStart r).1 = deadFire 0 := by
  have hfs : fireStart = fireState 100 400 := by rfl
  have hkk : (k : ℚ) ≤ (100 : ℚ) - 1 := by
    have : (k : ℚ) ≤ 99 := by exact_mod_cast hk
    linarith
  obtain ⟨T2, r2, hrun⟩ := ticks_fireState k 100 400 r hkk
  refine ⟨?_, ?_, ?_⟩
  · rw [hfs, hrun]; rfl
  · rw [hfs, hrun]; rfl
  · rw [hfs]
    obtain ⟨T3, r3, h99⟩ := ticks_fireState 99 100 400 r (by norm_num)
    have hsplit : ticks 100 (fireState 100 400) r =
        ticks 1 (ticks 99 (fireState 100 400) r).1 (ticks 99 (fireState 100 400) r).2 :=
      ticks_add 99 1 (fireState 100 400) r
    rw [hsplit, h99]
    dsimp only
    have h1 : ((100 : ℚ) - (99 : ℕ)) = 1 := by norm_num
    rw [h1]
    have htick1 : ticks 1 (fireState 1 T3) r3 =
        ((Grid.update (fireState 1 T3) r3).1, (Grid.update (fireState 1 T3) r3).2) := rfl
    rw [htick1, update_fireState_dead 1 T3 r3 (by norm_num)]
    dsimp only
    norm_num

theorem fire_decays_at_exactly_100_witness :
    cellAt (ticks 99 fireStart []).1 0 = FIRE ∧
    (metaAt (ticks 99 fireStart []).1 0).life = 100 - (99 : ℕ) ∧
    (ticks 100 fireStart []).1 = deadFire 0 :=
  fire_decays_at_exactly_100 [] 99 (by decide)

/-! ## Claim C2: Wall immobility -/

theorem step_refl (s : Grid) : Step s s :=
  fun hA => ⟨hA, fun _ h => h, rfl⟩

theorem step_trans {s t u : Grid} (h1 : Step s t) (h2 : Step t u) : Step s u := by
  intro hA
  obtain ⟨hA1, hW1, hg1⟩ := h1 hA
  obtain ⟨hA2, hW2, hg2⟩ := h2 hA1
  exact ⟨hA2, fun j hj => hW2 j (hW1 j hj), hg2.trans hg1⟩

theorem step_of_cells_eq {s t : Grid} (hc : ∀ j : ℤ, cellAt t j = cellAt s j)
    (hg : t.gravity = s.gravity) : Step s t := by
  intro hA
  refine ⟨fun j => ?_, fun j hj => ?_, hg⟩
  · rw [hc j]; exact hA j
  · rw [hc j]; exact hj

theorem step_modifyMeta (s : Grid) (a : ℤ) (f : Meta → Meta) : Step s (modifyMeta s a f) :=
  step_of_cells_eq (fun j => cellAt_modifyMeta s a f j) rfl

theorem step_setCell (s : Grid) (a v : ℤ) (hw : cellAt s a ≠ WALL) (hv : v ≠ ACID) :
    Step s (setCell s a v) := by
  intro hA
  refine ⟨fun j => ?_, fun j hj => ?_, rfl⟩
  · rcases cellAt_setCell_or s a v j with h | h
    · rw [h]; exact hA j
    · rw [h]; exact hv
  · have hne : a ≠ j := by rintro rfl; exact hw hj
    rw [cellAt_setCell_ne s a v j hne]; exact hj

theorem step_swap (s : Grid) (a b : ℤ) (ha : cellAt s a ≠ WALL) (hb : cellAt s b ≠ WALL) :
    Step s (s.swap a b) := by
  intro hA
  refine ⟨fun j => ?_, fun j hj => ?_, swap_gravity s a b⟩
  · rcases cellAt_swap_or s a b j with h | h | h
    · rw [h]; exact hA j
    · rw [h]; exact hA a
    · rw [h]; exact hA b
  · have hja : j ≠ a := by rintro rfl; exact ha hj
    have hjb : j ≠ b := by rintro rfl; exact hb hj
    rw [cellAt_swap_of_ne s a b j hja hjb]; exact hj

theorem canDisplace_target_ne_wall {s : Grid} {a b : ℤ} (h : s.canDisplace a b = true) :
    cellAt s b ≠ WALL := by
  unfold Grid.canDisplace at h
  split_ifs at h with h1 h2 h3
  · rw [h2]; decide
  · exact h3

theorem isEmpty_ne_wall {s : Grid} {a : ℤ} (h : s.isEmpty a = true) :
    cellAt s a ≠ WALL := by
  unfold Grid.isEmpty at h
  split_ifs at h with h1
  rw [of_decide_eq_true h]; decide

theorem flammable_ne_wall {m : ℤ} (h : flammable m = true) : m ≠ WALL := by
  unfold flammable at h
  split_ifs at h with h1 h2
  · rw [h1]; decide
  · rw [h2]; decide

/-- Helper for the movement branches: a displacement swap is a `Step`, and
the (possibly changed) material left at the source index is still no Wall. -/
theorem swap_branch (s : Grid) (cI t : ℤ) (hsrc : cellAt s cI ≠ WALL)
    (ht : s.canDisplace cI t = true) :
    Step s (s.swap cI t) ∧ cellAt (s.swap cI t) cI ≠ WALL := by
  refine ⟨step_swap s cI t hsrc (canDisplace_target_ne_wall ht), ?_⟩
  rcases cellAt_swap_src s cI t with h | h <;> rw [h]
  · exact canDisplace_target_ne_wall ht
  · exact hsrc

theorem step_heatAndIgnite (s : Grid) (r : List ℚ) (i x y : ℤ) :
    Step s (heatAndIgniteNearbySources s r i x y).1 := by
  unfold heatAndIgniteNearbySources
  refine foldl_pres (fun acc => Step s acc.1) _ _ ?_ (s, r) (step_refl s)
  intro acc n hacc
  dsimp only
  split_ifs with h1 h2 h3
  · exact step_trans hacc (step_trans (step_modifyMeta acc.1 n _)
      (step_trans (step_setCell _ n FIRE (flammable_ne_wall h2) (by decide))
        (step_modifyMeta _ n _)))
  · exact step_trans hacc (step_modifyMeta acc.1 n _)
  · exact step_trans hacc (step_modifyMeta acc.1 n _)
  · exact hacc

theorem step_extinguish (s : Grid) (r : List ℚ) (i x y : ℤ) :
    Step s (extinguishNearbySources s r i x y).1 := by
  unfold extinguishNearbySources
  refine foldl_pres (fun acc => Step s acc.1) _ _ ?_ (s, r) (step_refl s)
  intro acc n hacc
  dsimp only
  split_ifs with h1 h2
  · refine step_trans hacc (step_trans
      (step_setCell acc.1 n STEAM ?_ (by decide)) (step_modifyMeta _ n _))
    rw [h1.2.2]; decide
  · exact hacc
  · exact hacc

theorem step_freeze (s : Grid) (r : List ℚ) (i x y : ℤ) :
    Step s (freezeNearbySources s r i x y).1 := by
  unfold freezeNearbySources
  refine foldl_pres (fun acc => Step s acc.1) _ _ ?_ (s, r) (step_refl s)
  intro acc n hacc
  dsimp only
  split_ifs with h1 h2 h3
  · refine step_trans hacc (step_trans (step_modifyMeta acc.1 n _)
      (step_setCell _ n ICE ?_ (by decide)))
    rw [cellAt_modifyMeta, h1.2.2]; decide
  · exact step_trans hacc (step_modifyMeta acc.1 n _)
  · exact step_trans hacc (step_modifyMeta acc.1 n _)
  · exact hacc

theorem step_grid_set (s : Grid) (x y v : ℤ) (hv : v ≠ ACID)
    (hw : cellAt s (y * s.width + x) ≠ WALL) : Step s (s.set x y v) := by
  unfold Grid.set
  dsimp only
  split_ifs with h1 h2 h3
  · exact step_trans (step_setCell s _ v hw hv) (step_modifyMeta _ _ _)
  · exact step_trans (step_setCell s _ v hw hv) (step_modifyMeta _ _ _)
  · exact step_setCell s _ v hw hv
  · exact step_refl s

theorem cellAt_grid_set_or (s : Grid) (x y v j : ℤ) :
    cellAt (s.set x y v) j = cellAt s j ∨ cellAt (s.set x y v) j = v := by
  unfold Grid.set
  dsimp only
  split_ifs with h1 h2 h3 h4
  · rw [cellAt_modifyMeta]; exact cellAt_setCell_or s _ v j
  · rw [cellAt_modifyMeta]; exact cellAt_setCell_or s _ v j
  · rw [cellAt_modifyMeta]; exact cellAt_setCell_or s _ v j
  · exact cellAt_setCell_or s _ v j
  · exact Or.inl rfl

theorem plantTargets_cell (s : Grid) (x y : ℤ) (p : ℤ × ℤ) (hp : p ∈ plantTargets s x y) :
    cellAt s (p.2 * s.width + p.1) = EMPTY := by
  unfold plantTargets at hp
  rw [List.mem_map] at hp
  obtain ⟨d, hd, heq⟩ := hp
  rw [List.mem_filter] at hd
  obtain ⟨hinb, hget⟩ := of_decide_eq_true hd.2
  unfold Grid.get at hget
  rw [if_pos hinb] at hget
  rw [← heq]
  dsimp only
  exact hget

theorem step_growPlant (s : Grid) (r : List ℚ) (x y : ℤ)
    (hself : cellAt s (y * s.width + x) ≠ WALL) :
    Step s (growPlant s r x y).1 := by
  unfold growPlant
  dsimp only
  split_ifs with h1
  · apply step_grid_set
    · decide
    · rcases getD_mem_or (plantTargets s x y)
        (⌊(rngNext r).1 * ((plantTargets s x y).length : ℚ)⌋).toNat (x, y) with hmem | hdef
      · rw [plantTargets_cell s x y _ hmem]; decide
      · rw [hdef]
        dsimp only
        exact hself
  · exact step_refl s

theorem gravLoop_one (body : Grid → List ℚ → ℤ → (Grid × List ℚ) × Bool) (g0 : ℤ)
    (s : Grid) (r : List ℚ) : gravLoop body 1 g0 s r = (body s r g0).1 := by
  have h : gravLoop body 1 g0 s r =
      match body s r g0 with
      | ((s1, r1), moved) => if moved then gravLoop body 0 (g0 + 1) s1 r1 else (s1, r1) := rfl
  rw [h]
  rcases hb : body s r g0 with ⟨⟨s1, r1⟩, mv⟩
  cases mv
  · rfl
  · rfl

theorem step_sandSubstep (s : Grid) (r : List ℚ) (i x y : ℤ) (hs : cellAt s i = SAND) :
    Step s (sandSubstep s r i x y 0).1.1 := by
  have hsrc : cellAt s (i + 0 * s.width) ≠ WALL := by
    rw [show i + 0 * s.width = i by ring, hs]; decide
  unfold sandSubstep
  dsimp only
  split_ifs with h1 h2 h3 h4
  · exact step_refl s
  · exact (swap_branch s _ _ hsrc h2).1
  · exact (swap_branch s _ _ hsrc h3.2).1
  · exact (swap_branch s _ _ hsrc h4.2).1
  · exact step_refl s

theorem step_updateSand (s : Grid) (r : List ℚ) (i x y : ℤ)
    (hg : s.gravity = 1) (hs : cellAt s i = SAND) :
    Step s (updateSand s r i x y).1 := by
  unfold updateSand
  rw [hg, show (1 : ℤ).toNat = 1 from rfl, gravLoop_one]
  exact step_sandSubstep s r i x y hs

theorem step_waterMove (s : Grid) (r : List ℚ) (cI cX : ℤ) (hsrc : cellAt s cI ≠ WALL) :
    Step s (waterMove s r cI cX).1.1 ∧ cellAt (waterMove s r cI cX).1.1 cI ≠ WALL := by
  unfold waterMove
  dsimp only
  split_ifs with h1 h2 h3 h4 h5 h6 h7 h8
  · exact swap_branch s _ _ hsrc h1
  · exact swap_branch s _ _ hsrc h2.2
  · exact swap_branch s _ _ hsrc h3.2
  · exact swap_branch s _ _ hsrc h5.2
  · exact swap_branch s _ _ hsrc h6.2
  · exact ⟨step_refl s, hsrc⟩
  · exact swap_branch s _ _ hsrc h7.2
  · exact swap_branch s _ _ hsrc h8.2
  · exact ⟨step_refl s, hsrc⟩

theorem step_waterPhase (s : Grid) (r : List ℚ) (cI : ℤ) (hsrc : cellAt s cI ≠ WALL) :
    Step s (waterPhase s r cI).1 := by
  unfold waterPhase
  dsimp only
  split_ifs
  · refine step_trans (step_trans (step_setCell s cI STEAM hsrc (by decide))
      (step_modifyMeta _ cI _)) (step_setCell _ cI ICE ?_ (by decide))
    rw [cellAt_modifyMeta]
    rcases cellAt_setCell_or s cI STEAM cI with h | h <;> rw [h]
    · exact hsrc
    · decide
  · exact step_trans (step_setCell s cI STEAM hsrc (by decide)) (step_modifyMeta _ cI _)
  · exact step_trans (step_setCell s cI STEAM hsrc (by decide)) (step_modifyMeta _ cI _)
  · exact step_setCell s cI ICE hsrc (by decide)
  · exact step_refl s
  · exact step_refl s
  · exact step_setCell s cI ICE hsrc (by decide)
  · exact step_refl s
  · exact step_refl s

theorem step_waterSubstep (s : Grid) (r : List ℚ) (i x y : ℤ) (hs : cellAt s i = WATER) :
    Step s (waterSubstep s r i x y 0).1.1 := by
  have hsrc : cellAt s (i + 0 * s.width) ≠ WALL := by
    rw [show i + 0 * s.width = i by ring, hs]; decide
  unfold waterSubstep
  dsimp only
  split_ifs with h1
  · exact step_refl s
  · have hW := step_waterMove s r (i + 0 * s.width) x hsrc
    have hP := step_waterPhase (waterMove s r (i + 0 * s.width) x).1.1
      (waterMove s r (i + 0 * s.width) x).1.2 (i + 0 * s.width) hW.2
    have hE := step_extinguish
      (waterPhase (waterMove s r (i + 0 * s.width) x).1.1
        (waterMove s r (i + 0 * s.width) x).1.2 (i + 0 * s.width)).1
      (waterPhase (waterMove s r (i + 0 * s.width) x).1.1
        (waterMove s r (i + 0 * s.width) x).1.2 (i + 0 * s.width)).2
      (i + 0 * s.width) x (y + 0)
    exact step_trans hW.1 (step_trans hP hE)

theorem step_updateWater (s : Grid) (r : List ℚ) (i x y : ℤ)
    (hg : s.gravity = 1) (hs : cellAt s i = WATER) :
    Step s (updateWater s r i x y).1 := by
  unfold updateWater
  rw [hg, show (1 : ℤ).toNat = 1 from rfl, gravLoop_one]
  exact step_waterSubstep s r i x y hs

theorem step_oilMove (s : Grid) (r : List ℚ) (cI cX : ℤ) (hsrc : cellAt s cI ≠ WALL) :
    Step s (oilMove s r cI cX).1.1 ∧ cellAt (oilMove s r cI cX).1.1 cI ≠ WALL := by
  unfold oilMove
  dsimp only
  split_ifs with h1 h2 h3 h4 h5 h6
  · exact swap_branch s _ _ hsrc h1
  · exact swap_branch s _ _ hsrc h2.2.2
  · exact swap_branch s _ _ hsrc h3.2.2
  · exact swap_branch s _ _ hsrc h5.2.2
  · exact swap_branch s _ _ hsrc h6.2
  · exact ⟨step_refl s, hsrc⟩
  · exact ⟨step_refl s, hsrc⟩

theorem step_oilIgnite (s : Grid) (r : List ℚ) (cI cX cY : ℤ) (hsrc : cellAt s cI ≠ WALL) :
    Step s (oilIgnite s r cI cX cY).1 := by
  unfold oilIgnite
  dsimp only
  split_ifs with h1 h2
  · exact step_trans (step_setCell s cI FIRE hsrc (by decide)) (step_modifyMeta _ cI _)
  · exact step_refl s
  · exact step_refl s

theorem step_oilSubstep (s : Grid) (r : List ℚ) (i x y : ℤ) (hs : cellAt s i = OIL) :
    Step s (oilSubstep s r i x y 0).1.1 := by
  have hsrc : cellAt s (i + 0 * s.width) ≠ WALL := by
    rw [show i + 0 * s.width = i by ring, hs]; decide
  unfold oilSubstep
  dsimp only
  split_ifs with h1
  · exact step_refl s
  · have hM := step_oilMove s r (i + 0 * s.width) x hsrc
    have hI := step_oilIgnite (oilMove s r (i + 0 * s.width) x).1.1
      (oilMove s r (i + 0 * s.width) x).1.2 (i + 0 * s.width) x (y + 0) hM.2
    exact step_trans hM.1 hI

theorem step_updateOil (s : Grid) (r : List ℚ) (i x y : ℤ)
    (hg : s.gravity = 1) (hs : cellAt s i = OIL) :
    Step s (updateOil s r i x y).1 := by
  unfold updateOil
  rw [hg, show (max 1 ((1 : ℤ) - 1)).toNat = 1 from rfl, gravLoop_one]
  exact step_oilSubstep s r i x y hs

set_option maxHeartbeats 1600000 in
theorem step_updateFire (s : Grid) (r : List ℚ) (i x y : ℤ) (hs : cellAt s i = FIRE) :
    Step s (updateFire s r i x y).1 := by
  unfold updateFire
  dsimp only
  split_ifs with h1 m1 sp1 m2 sp2 m3 sp3 sp4 <;> (try dsimp only)
  · exact step_trans (step_modifyMeta s i _)
      (step_trans (step_setCell _ i EMPTY (by rw [cellAt_modifyMeta, hs]; decide) (by decide))
        (step_modifyMeta _ i _))
  · exact step_trans (step_modifyMeta s i _)
      (step_trans (step_swap _ i _ (by rw [cellAt_modifyMeta, hs]; decide) (isEmpty_ne_wall m1.2))
        (step_trans (step_heatAndIgnite _ r i x y)
          (step_trans (step_trans (step_setCell _ _ STEAM (isEmpty_ne_wall sp1.2.2) (by decide))
            (step_modifyMeta _ _ _)) (step_modifyMeta _ _ _))))
  · exact step_trans (step_modifyMeta s i _)
      (step_trans (step_swap _ i _ (by rw [cellAt_modifyMeta, hs]; decide) (isEmpty_ne_wall m1.2))
        (step_trans (step_heatAndIgnite _ r i x y) (step_modifyMeta _ _ _)))
  · exact step_trans (step_modifyMeta s i _)
      (step_trans (step_swap _ i _ (by rw [cellAt_modifyMeta, hs]; decide) (isEmpty_ne_wall m2.2.2))
        (step_trans (step_heatAndIgnite _ r i x y)
          (step_trans (step_trans (step_setCell _ _ STEAM (isEmpty_ne_wall sp2.2.2) (by decide))
            (step_modifyMeta _ _ _)) (step_modifyMeta _ _ _))))
  · exact step_trans (step_modifyMeta s i _)
      (step_trans (step_swap _ i _ (by rw [cellAt_modifyMeta, hs]; decide) (isEmpty_ne_wall m2.2.2))
        (step_trans (step_heatAndIgnite _ r i x y) (step_modifyMeta _ _ _)))
  · exact step_trans (step_modifyMeta s i _)
      (step_trans (step_swap _ i _ (by rw [cellAt_modifyMeta, hs]; decide) (isEmpty_ne_wall m3.2.2))
        (step_trans (step_heatAndIgnite _ r i x y)
          (step_trans (step_trans (step_setCell _ _ STEAM (isEmpty_ne_wall sp3.2.2) (by decide))
            (step_modifyMeta _ _ _)) (step_modifyMeta _ _ _))))
  · exact step_trans (step_modifyMeta s i _)
      (step_trans (step_swap _ i _ (by rw [cellAt_modifyMeta, hs]; decide) (isEmpty_ne_wall m3.2.2))
        (step_trans (step_heatAndIgnite _ r i x y) (step_modifyMeta _ _ _)))
  · exact step_trans (step_modifyMeta s i _)
      (step_trans (step_heatAndIgnite _ r i x y)
        (step_trans (step_trans (step_setCell _ _ STEAM (isEmpty_ne_wall sp4.2.2) (by decide))
          (step_modifyMeta _ _ _)) (step_modifyMeta _ _ _)))
  · exact step_trans (step_modifyMeta s i _)
      (step_trans (step_heatAndIgnite _ r i x y) (step_modifyMeta _ _ _))

theorem step_updateSteam (s : Grid) (r : List ℚ) (i x y : ℤ) (hs : cellAt s i = STEAM) :
    Step s (updateSteam s r i x y).1 := by
  unfold updateSteam
  dsimp only
  split_ifs with h1 h2 h3 m1 m2 m3 m4 m5 <;> (try dsimp only)
  · exact step_trans (step_modifyMeta s i _)
      (step_trans (step_setCell _ i WATER (by rw [cellAt_modifyMeta, hs]; decide) (by decide))
        (step_modifyMeta _ i _))
  · exact step_trans (step_modifyMeta s i _)
      (step_trans (step_setCell _ i EMPTY (by rw [cellAt_modifyMeta, hs]; decide) (by decide))
        (step_modifyMeta _ i _))
  · exact step_trans (step_modifyMeta s i _)
      (step_trans (step_setCell _ i EMPTY (by rw [cellAt_modifyMeta, hs]; decide) (by decide))
        (step_modifyMeta _ i _))
  · exact step_trans (step_modifyMeta s i _)
      (step_trans (step_swap _ i _ (by rw [cellAt_modifyMeta, hs]; decide) (isEmpty_ne_wall m1.2))
        (step_modifyMeta _ _ _))
  · exact step_trans (step_modifyMeta s i _)
      (step_trans (step_swap _ i _ (by rw [cellAt_modifyMeta, hs]; decide) (isEmpty_ne_wall m2.2.2))
        (step_modifyMeta _ _ _))
  · exact step_trans (step_modifyMeta s i _)
      (step_trans (step_swap _ i _ (by rw [cellAt_modifyMeta, hs]; decide) (isEmpty_ne_wall m3.2.2))
        (step_modifyMeta _ _ _))
  · exact step_trans (step_modifyMeta s i _)
      (step_trans (step_swap _ i _ (by rw [cellAt_modifyMeta, hs]; decide) (isEmpty_ne_wall m4.2.2))
        (step_modifyMeta _ _ _))
  · exact step_trans (step_modifyMeta s i _)
      (step_trans (step_swap _ i _ (by rw [cellAt_modifyMeta, hs]; decide) (isEmpty_ne_wall m5.2))
        (step_modifyMeta _ _ _))
  · exact step_trans (step_modifyMeta s i _) (step_modifyMeta _ i _)

set_option maxHeartbeats 1600000 in
theorem step_updateIce (s : Grid) (r : List ℚ) (i x y : ℤ) (hs : cellAt s i = ICE) :
    Step s (updateIce s r i x y).1 := by
  unfold updateIce
  dsimp only
  split_ifs <;> (try dsimp only)
  · exact step_trans (step_trans (step_setCell s i WATER (by rw [hs]; decide) (by decide))
      (step_modifyMeta _ i _)) (step_freeze _ _ i x y)
  · exact step_trans (step_setCell s i WATER (by rw [hs]; decide) (by decide))
      (step_modifyMeta _ i _)
  · exact step_freeze s _ i x y
  · exact step_refl s
  · exact step_freeze s _ i x y
  · exact step_refl s

theorem growPlant_cell_or (s : Grid) (r : List ℚ) (x y j : ℤ) :
    cellAt (growPlant s r x y).1 j = cellAt s j ∨ cellAt (growPlant s r x y).1 j = PLANT := by
  unfold growPlant
  dsimp only
  split_ifs with h1
  · exact cellAt_grid_set_or s _ _ PLANT j
  · exact Or.inl rfl

set_option maxHeartbeats 1600000 in
theorem step_updatePlant (s : Grid) (r : List ℚ) (x y i : ℤ)
    (hs : cellAt s i = PLANT) (hi : i = y * s.width + x) :
    Step s (updatePlant s r i x y).1 := by
  unfold updatePlant
  dsimp only
  split_ifs <;> (try dsimp only)
  · refine step_trans (step_growPlant s ((rngNext r).2) x y (by rw [← hi, hs]; decide))
      (step_trans (step_setCell _ i FIRE ?_ (by decide)) (step_modifyMeta _ i _))
    rcases growPlant_cell_or s ((rngNext r).2) x y i with h | h
    · rw [h, hs]; decide
    · rw [h]; decide
  · exact step_growPlant s ((rngNext r).2) x y (by rw [← hi, hs]; decide)
  · exact step_growPlant s ((rngNext r).2) x y (by rw [← hi, hs]; decide)
  · exact step_trans (step_setCell s i FIRE (by rw [hs]; decide) (by decide))
      (step_modifyMeta _ i _)
  · exact step_refl s
  · exact step_refl s
  · exact step_trans (step_setCell s i FIRE (by rw [hs]; decide) (by decide))
      (step_modifyMeta _ i _)
  · exact step_refl s
  · exact step_refl s

theorem foldl_grid_frame (s : Grid) (l : List ℤ) (f : Grid → ℤ → Grid)
    (hf : ∀ t n, (f t n).grid = t.grid ∧ (f t n).gravity = t.gravity) :
    (l.foldl f s).grid = s.grid ∧ (l.foldl f s).gravity = s.gravity := by
  refine foldl_pres (fun t => t.grid = s.grid ∧ t.gravity = s.gravity) f l ?_ s ⟨rfl, rfl⟩
  intro acc n hacc
  exact ⟨(hf acc n).1.trans hacc.1, (hf acc n).2.trans hacc.2⟩

theorem updateTemperature_frame (s : Grid) (i : ℤ) :
    (updateTemperature s i).grid = s.grid ∧ (updateTemperature s i).gravity = s.gravity := by
  unfold updateTemperature
  dsimp only
  split_ifs with h1 h2
  · exact ⟨rfl, rfl⟩
  all_goals {
    apply foldl_grid_frame
    intro t n
    dsimp only
    split_ifs
    · exact ⟨rfl, rfl⟩
    · exact ⟨rfl, rfl⟩
    · exact ⟨rfl, rfl⟩ }

theorem cellAt_congr_grid {s t : Grid} (h : t.grid = s.grid) (j : ℤ) :
    cellAt t j = cellAt s j := by
  unfold cellAt
  rw [h]

theorem step_updateTemperature (s : Grid) (i : ℤ) : Step s (updateTemperature s i) :=
  step_of_cells_eq (cellAt_congr_grid (updateTemperature_frame s i).1)
    (updateTemperature_frame s i).2

theorem step_dispatchA (s0 : Grid) (hg1 : s0.gravity = 1) (sr : Grid × List ℚ) (x y : ℤ)
    (h : Step s0 sr.1) : Step s0 (dispatchA sr x y).1 := by
  intro hA
  obtain ⟨hA1, hW1, hgr⟩ := h hA
  unfold dispatchA
  dsimp only
  split_ifs with h1 h2 h3 h4 h5
  · exact (step_trans h (step_updateSand sr.1 sr.2 _ x y (hgr.trans hg1) h1)) hA
  · exact (step_trans h (step_updateWater sr.1 sr.2 _ x y (hgr.trans hg1) h2)) hA
  · exact (step_trans h (step_updateOil sr.1 sr.2 _ x y (hgr.trans hg1) h3)) hA
  · exact absurd h4 (hA1 _)
  · exact (step_trans h (step_updateIce sr.1 sr.2 _ x y h5)) hA
  · exact h hA

theorem step_dispatchB (s0 : Grid) (sr : Grid × List ℚ) (x y : ℤ)
    (h : Step s0 sr.1) : Step s0 (dispatchB sr x y).1 := by
  intro hA
  unfold dispatchB
  dsimp only
  split_ifs with h1 h2 h3
  · exact (step_trans h (step_updateFire sr.1 sr.2 _ x y h1)) hA
  · exact (step_trans h (step_updateSteam sr.1 sr.2 _ x y h2)) hA
  · exact (step_trans h (step_updatePlant sr.1 sr.2 x y _ h3 rfl)) hA
  · exact h hA

theorem step_rowA (s0 : Grid) (hg1 : s0.gravity = 1) (sr : Grid × List ℚ) (y : ℤ)
    (h : Step s0 sr.1) : Step s0 (rowA sr y).1 := by
  unfold rowA
  exact foldl_pres (fun acc => Step s0 acc.1) _ _
    (fun acc b hb => step_dispatchA s0 hg1 acc b y hb) sr h

theorem step_passA (s0 : Grid) (hg1 : s0.gravity = 1) (sr : Grid × List ℚ)
    (h : Step s0 sr.1) : Step s0 (passA sr).1 := by
  unfold passA
  exact foldl_pres (fun acc => Step s0 acc.1) _ _
    (fun acc b hb => step_rowA s0 hg1 acc b hb) sr h

theorem step_rowB (s0 : Grid) (sr : Grid × List ℚ) (y : ℤ)
    (h : Step s0 sr.1) : Step s0 (rowB sr y).1 := by
  unfold rowB
  exact foldl_pres (fun acc => Step s0 acc.1) _ _
    (fun acc b hb => step_dispatchB s0 acc b y hb) sr h

theorem step_passB (s0 : Grid) (sr : Grid × List ℚ)
    (h : Step s0 sr.1) : Step s0 (passB sr).1 := by
  unfold passB
  exact foldl_pres (fun acc => Step s0 acc.1) _ _
    (fun acc b hb => step_rowB s0 acc b hb) sr h

theorem step_passC (s0 : Grid) (sr : Grid × List ℚ)
    (h : Step s0 sr.1) : Step s0 (passC sr).1 := by
  unfold passC
  refine foldl_pres (fun acc => Step s0 acc.1) _ _ ?_ sr h
  intro acc n hacc
  exact step_trans hacc (step_updateTemperature acc.1 n)

/-- An Acid-free state from the decidable absence of `ACID` in the cell list. -/
theorem acidFree_of_not_mem (s : Grid) (h : ACID ∉ s.grid) : AcidFree s := by
  intro j
  unfold cellAt
  split_ifs with h1
  · rcases getD_mem_or s.grid j.toNat junkCell with hm | hd
    · exact fun hc => h (hc ▸ hm)
    · rw [hd]; decide
  · decide

/-- Claim C2 counterexample: a Wall is not always left untouched by a tick —
on a 2×1 grid holding Acid next to a Wall, a tick with stream `[0, 0]`
(both dissolution rolls succeed) erases the Wall to Empty. -/
theorem wall_dissolved_by_acid :
    cellAt acidWall 1 = WALL ∧ (Grid.update acidWall [0, 0]).1.grid = [ACID, EMPTY] := by
  decide

/-- Claim C2 (amended): on a grid with gravityStrength 1 that contains no
Acid, a tick never moves or erases a Wall cell: every index holding Wall
before `update()` still holds Wall after it. -/
theorem wall_immobile_no_acid (s : Grid) (r : List ℚ) (j : ℤ)
    (hg : s.gravity = 1) (hacid : AcidFree s) (hwall : cellAt s j = WALL) :
    cellAt (Grid.update s r).1 j = WALL := by
  have h : Step s (Grid.update s r).1 := by
    unfold Grid.update
    exact step_passC s _ (step_passB s _ (step_passA s hg (s, r) (step_refl s)))
  exact (h hacid).2.1 j hwall

theorem wall_immobile_no_acid_witness :
    cellAt (Grid.update demoGrid []).1 2 = WALL :=
  wall_immobile_no_acid demoGrid [] 2 (by decide)
    (acidFree_of_not_mem demoGrid (by decide)) (by decide)

end SandSim
